import Mathlib

/-!
Shallow embedding of the gbemu Game Boy emulator core (Rust) in Lean 4,
together with theorems checking the natural-language specification against
the code.  Machine integers are modelled as `Nat` with explicit masking /
`%` where the Rust code wraps.  Each definition mirrors one Rust item; the
source file and item are named in the doc comment.
-/

set_option autoImplicit false

namespace Gbemu

/-! ## Counter (src/counter.rs) -/

/-- `Counter` struct from src/counter.rs: `ticks` and `period`, both `u32`. -/
structure Counter where
  ticks : Nat
  period : Nat
  deriving Repr, DecidableEq

namespace Counter

/-- `Counter::new`: create a counter; a counter with period of 0 never triggers. -/
def new (period : Nat) : Counter :=
  { period := period, ticks := 0 }

/-- `Counter::get_period`. -/
def getPeriod (c : Counter) : Nat := c.period

/-- `Counter::tick`: tick and return the number of times the counter
overflowed/triggered, cyclically subtracting `elapsed` from `ticks`. -/
def tick (c : Counter) (elapsed : Nat) : Counter × Nat :=
  if c.period = 0 then (c, 0)
  else if elapsed < c.ticks then ({ c with ticks := c.ticks - elapsed }, 0)
  else
    let excess := elapsed - c.ticks
    ({ c with ticks := c.period - excess % c.period }, excess / c.period + 1)

/-- Fold `Counter::tick` over a list of elapsed amounts, summing the
returned overflow counts. -/
def tickAll (c : Counter) : List Nat → Counter × Nat
  | [] => (c, 0)
  | e :: es =>
    let p := tick c e
    let q := tickAll p.1 es
    (q.1, p.2 + q.2)

end Counter

/-! ## CPU flag helper functions (src/cpu.rs) -/

/-- `mask_u16` from src/cpu.rs: `!(!0u16 << bits)`, with the `bits == 16`
case special-cased in the source. -/
def maskU16 (bits : Nat) : Nat :=
  if bits = 16 then 0xFFFF else (1 <<< bits) - 1

/-- `is_carry` from src/cpu.rs: overflow for `r = a + b` on the low `bits`
bits, detected as `(a + b) & m < a` after masking. -/
def isCarry (a b bits : Nat) : Nat :=
  let m := maskU16 bits
  let a := a &&& m
  let b := b &&& m
  if (a + b) &&& m < a then 1 else 0

/-- `is_borrow` from src/cpu.rs: underflow for `r = a - b`, i.e. `b > a`
after masking. -/
def isBorrow (a b bits : Nat) : Nat :=
  let m := maskU16 bits
  let a := a &&& m
  let b := b &&& m
  if a < b then 1 else 0

/-- Conversion `(i as i16) as u16` applied to a byte that the decoder read
as `i8` (src/cpu.rs `Operand::I8` / `Operand::SPplusI8` evaluation). -/
def i8ToU16 (b : Nat) : Nat :=
  if b < 128 then b else 0xFF00 + b

/-- CPU flag register F (src/cpu.rs `Flags` bit_fields struct):
bits `_0:4, c:1, h:1, n:1, z:1` from LSB to MSB. -/
structure Flags where
  pad0 : Nat
  c : Nat
  h : Nat
  n : Nat
  z : Nat
  deriving Repr, DecidableEq

/-- `Flags::read` generated by the `bit_fields!` macro. -/
def Flags.read (f : Flags) : Nat :=
  (f.pad0 &&& 0xF) ||| ((f.c &&& 1) <<< 4) ||| ((f.h &&& 1) <<< 5) |||
    ((f.n &&& 1) <<< 6) ||| ((f.z &&& 1) <<< 7)

/-- `Flags::write` generated by the `bit_fields!` macro. -/
def Flags.write (v : Nat) : Flags :=
  { pad0 := v &&& 0xF, c := (v >>> 4) &&& 1, h := (v >>> 5) &&& 1,
    n := (v >>> 6) &&& 1, z := (v >>> 7) &&& 1 }

/-- The `LD HL, SP + e8` execution path of `Cpu::exec_next_instr`
(src/cpu.rs lines 201-207 plus `get_op_val` for `Operand::SPplusI8`):
`HL` is set to `(sp as i32 + e8 as i32) as u16` and the flags are fully
rewritten with `Z = 0`, `N = 0`, `H = is_carry(sp, e8, 4)`,
`C = is_carry(sp, e8, 8)` where `e8` is sign-extended to `u16`. -/
def ldHlSpE8 (sp e8 : Nat) : Nat × Flags :=
  let v := i8ToU16 e8
  let hl := (sp + v) % 65536
  (hl, { Flags.write 0 with h := isCarry sp v 4, c := isCarry sp v 8 })

/-- The signed value denoted by a byte interpreted as `i8` (spec side). -/
def specSigned (e8 : Nat) : Int :=
  if e8 < 128 then (e8 : Int) else (e8 : Int) - 256

/-! ## Timer (src/timer.rs) -/

/-- `TimerCtrl` (`TAC`) register from src/regs.rs:
`clock_select: 2, enable: 1` from LSB. -/
structure TimerCtrl where
  clockSelect : Nat
  enable : Nat
  deriving Repr, DecidableEq

/-- `TimerCtrl::read` from the `bit_fields!` macro. -/
def TimerCtrl.read (t : TimerCtrl) : Nat :=
  (t.clockSelect &&& 0x3) ||| ((t.enable &&& 1) <<< 2)

/-- `TimerCtrl::write` from the `bit_fields!` macro. -/
def TimerCtrl.write (v : Nat) : TimerCtrl :=
  { clockSelect := v &&& 0x3, enable := (v >>> 2) &&& 1 }

/-- `Timer` struct from src/timer.rs. -/
structure Timer where
  is2x : Bool
  tac : TimerCtrl
  tma : Nat
  tima : Nat
  apuTicks : Nat
  sysClock : Nat
  oldSysClock : Nat
  wasDivReset : Bool
  timaOverflowed : Bool
  deriving Repr, DecidableEq

/-- `SYS_CLOCK_MASK` from src/timer.rs: `!(!0 << 14)`. -/
def sysClockMask : Nat := 0x3FFF

namespace Timer

/-- `Timer::new` (`Default::default()`). -/
def new : Timer :=
  { is2x := false, tac := { clockSelect := 0, enable := 0 }, tma := 0,
    tima := 0, apuTicks := 0, sysClock := 0, oldSysClock := 0,
    wasDivReset := false, timaOverflowed := false }

/-- `Timer::reset_div`: zero the sys-clock and remember that it was reset. -/
def resetDiv (t : Timer) : Timer :=
  { t with sysClock := 0, wasDivReset := true }

/-- `Timer::get_div`: `(sys_clock >> 6) as u8`. -/
def getDiv (t : Timer) : Nat :=
  (t.sysClock >>> 6) % 256

/-- `tima_clock_bit` from src/timer.rs: which bit of the sys-clock must
fall for TIMA to be incremented.  The `_ => unreachable!()` arm cannot be
hit for a 2-bit `clock_select`; it is mapped to the `0` arm. -/
def timaClockBit (clockSelect : Nat) : Nat :=
  match clockSelect with
  | 1 => 1
  | 2 => 3
  | 3 => 5
  | _ => 7

/-- `Timer::has_div_bit_fallen`. -/
def hasDivBitFallen (t : Timer) (bit : Nat) : Bool :=
  (t.oldSysClock >>> bit) &&& 1 = 1 ∧ (t.sysClock >>> bit) &&& 1 = 0

/-- `Timer::process_clock_tick`: handle one `old_sys_clock -> sys_clock`
transition; returns the updated timer and whether the TIMER interrupt is
requested. -/
def processClockTick (t : Timer) : Timer × Bool :=
  let apuBit := if t.is2x then 11 else 10
  let t := { t with
    apuTicks := t.apuTicks + (if t.hasDivBitFallen apuBit then 1 else 0) }
  let r :=
    if t.timaOverflowed then
      ({ t with tima := t.tma, timaOverflowed := false }, true)
    else (t, false)
  let t := r.1
  let intr := r.2
  if t.tac.enable = 0 then (t, intr)
  else if ¬ t.hasDivBitFallen (timaClockBit t.tac.clockSelect) then (t, intr)
  else if t.tima = 0xFF then ({ t with timaOverflowed := true, tima := 0 }, intr)
  else ({ t with tima := t.tima + 1 }, intr)

/-- The `for _ in 0..mcycles` loop body of `Timer::tick`. -/
def tickLoop : Timer → Bool → Nat → Timer × Bool
  | t, intr, 0 => (t, intr)
  | t, intr, m + 1 =>
    let t := { t with sysClock := (t.sysClock + 1) &&& sysClockMask }
    let r := t.processClockTick
    let t := { r.1 with oldSysClock := r.1.sysClock }
    tickLoop t (r.2 || intr) m

/-- `Timer::tick` (src/timer.rs lines 41-64).  If DIV was reset, the
`old_sys_clock -> 0` transition is processed as a tick consuming one of
the m-cycles without incrementing the sys-clock. -/
def tick (t : Timer) (mcycles : Nat) : Timer × Bool :=
  let t := { t with apuTicks := 0 }
  if t.wasDivReset then
    let r := t.processClockTick
    let t := { r.1 with oldSysClock := r.1.sysClock, wasDivReset := false }
    tickLoop t r.2 (mcycles - 1)
  else
    tickLoop t false mcycles

end Timer

/-! ## Serial (src/serial.rs) -/

/-- `SerialCtrl` (`SC`) register from src/regs.rs:
`clock_select: 1, clock_speed: 1, _0: 5, tx_enable: 1` from LSB. -/
structure SerialCtrl where
  clockSelect : Nat
  clockSpeed : Nat
  pad0 : Nat
  txEnable : Nat
  deriving Repr, DecidableEq

/-- `SerialCtrl::read` from the `bit_fields!` macro. -/
def SerialCtrl.read (s : SerialCtrl) : Nat :=
  (s.clockSelect &&& 1) ||| ((s.clockSpeed &&& 1) <<< 1) |||
    ((s.pad0 &&& 0x1F) <<< 2) ||| ((s.txEnable &&& 1) <<< 7)

/-- `SerialCtrl::write` from the `bit_fields!` macro. -/
def SerialCtrl.write (v : Nat) : SerialCtrl :=
  { clockSelect := v &&& 1, clockSpeed := (v >>> 1) &&& 1,
    pad0 := (v >>> 2) &&& 0x1F, txEnable := (v >>> 7) &&& 1 }

/-- `Serial` struct from src/serial.rs. -/
structure Serial where
  is2x : Bool
  sc : SerialCtrl
  sb : Nat
  counter : Nat
  period : Nat
  bitsDone : Nat
  transferring : Bool
  deriving Repr, DecidableEq

/-- `get_mperiod` from src/serial.rs: period in m-cycles for one serial
bit.  A non-CGB cartridge always gets 128. -/
def getMperiod (clockSpeed : Nat) (isCgbCart : Bool) (is2x : Bool) : Nat :=
  if ¬ isCgbCart then 128
  else if clockSpeed = 1 then (if is2x then 4 else 8)
  else (if is2x then 256 else 128)

/-- `cyclic_add` from src/serial.rs: add `incBy` to `val` modulo `maxVal`,
returning the new value and the number of wrap-arounds. -/
def cyclicAdd (maxVal val incBy : Nat) : Nat × Nat :=
  if incBy < maxVal - val then (val + incBy, 0)
  else
    let left := incBy - (maxVal - val)
    (left % maxVal, left / maxVal + 1)

namespace Serial

/-- `Serial::new` (`Default::default()`). -/
def new : Serial :=
  { is2x := false,
    sc := { clockSelect := 0, clockSpeed := 0, pad0 := 0, txEnable := 0 },
    sb := 0, counter := 0, period := 0, bitsDone := 0, transferring := false }

/-- `Serial::tick` (src/serial.rs lines 23-57).  The first call with
`tx_enable == 1` only latches the period and starts the transfer; the
shift register is `sb.wrapping_shl(inc_by)` (a `u8` shift, so the shift
amount is taken mod 8). -/
def tick (s : Serial) (mcycles : Nat) (isCgbCart : Bool) : Serial × Bool :=
  if s.sc.txEnable = 0 then (s, false)
  else if ¬ s.transferring then
    let period :=
      if s.sc.clockSelect = 0 then 1
      else getMperiod s.sc.clockSpeed isCgbCart s.is2x
    ({ s with
        period := period, bitsDone := 0, counter := 0,
        transferring := true }, false)
  else
    let r := cyclicAdd s.period s.counter mcycles
    let incBy := r.2
    let s := { s with
        counter := r.1, bitsDone := s.bitsDone + incBy,
        sb := (s.sb <<< (incBy % 8)) % 256 }
    if s.bitsDone < 8 then (s, false)
    else ({ s with
        transferring := false,
        sc := { s.sc with txEnable := 0 } }, true)

/-- Iterate `Serial::tick` with `mc` m-cycles per call, returning the
final state and whether any of the calls requested the serial
interrupt. -/
def runFires (s : Serial) (isCgbCart : Bool) (mc : Nat) : Nat → Serial × Bool
  | 0 => (s, false)
  | n + 1 =>
    let r := tick s mc isCgbCart
    let q := runFires r.1 isCgbCart mc n
    (q.1, r.2 || q.2)

end Serial

/-- Serial state for the C8 scenario: `SC.tx_enable = 1` with the internal
clock selected (`clock_select = 1`) at normal speed, `SB = 0x5A`. -/
def c8SerialStart : Serial :=
  { Serial.new with
      sc := { clockSelect := 1, clockSpeed := 0, pad0 := 0, txEnable := 1 },
      sb := 0x5A }

/-- Timer state for the C3 witness: sys-clock just below a full wrap with
TIMA clocking enabled (`TAC.enable = 1`, `clock_select = 0`, bit 7 set). -/
def c3TimerStart : Timer :=
  { Timer.new with
      tac := { clockSelect := 0, enable := 1 },
      tima := 5, tma := 0xAB,
      sysClock := 0x3FFF, oldSysClock := 0x3FFF }


/-! ## Cartridge / MBC1 (src/cartridge.rs) -/

/-- `mask_usize` (the crate-level `mask_usize` helper used by
`Cartidge::write_mbc1`); all call sites use `bits < 64`. -/
def maskUsize (bits : Nat) : Nat := (1 <<< bits) - 1

/-- `ROM_ADDR_MASK = SIZE_ROM_BANK - 1` from src/cartridge.rs. -/
def romAddrMask : Nat := 0x3FFF

/-- `RAM_ADDR_MASK = SIZE_EXT_RAM_BANK - 1` from src/cartridge.rs. -/
def ramAddrMask : Nat := 0x1FFF

/-- `MbcType` enum from src/cartridge.rs. -/
inductive MbcType where
  | None
  | Mbc1
  | Mbc2
  | Mbc3
  | Mbc5
  | Mbc6
  | Mbc7
  | Mmm01
  | HuC1
  | HuC3
  deriving Repr, DecidableEq

/-- `Cartidge` struct from src/cartridge.rs (the source spells it this
way).  The boxed byte slices `rom` and `ram` are modelled as a total
function plus an explicit length; `Cartidge::new` only ever constructs
the `None` and `Mbc1` kinds (all others return `NotImplemented`). -/
structure Cartidge where
  isCgb : Bool
  kind : MbcType
  rom : Nat → Nat
  romLen : Nat
  ram : Nat → Nat
  ramLen : Nat
  rom0Off : Nat
  rom1Off : Nat
  ramOff : Nat
  ramEnabled : Bool
  bankMode : Bool
  bankLo : Nat
  bankHi : Nat

namespace Cartidge

/-- `Cartidge::read_rom`: `rom.get(addr).unwrap_or(&0xFF)`. -/
def readRom (c : Cartidge) (addr : Nat) : Nat :=
  if addr < c.romLen then c.rom addr else 0xFF

/-- `Cartidge::read_ram`: `ram.get(addr).unwrap_or(&0xFF)`. -/
def readRam (c : Cartidge) (addr : Nat) : Nat :=
  if addr < c.ramLen then c.ram addr else 0xFF

/-- `Cartidge::write_ram`: write only if the offset is in range. -/
def writeRam (c : Cartidge) (addr val : Nat) : Cartidge :=
  if addr < c.ramLen then
    { c with ram := fun a => if a = addr then val else c.ram a }
  else c

/-- `Cartidge::read` (src/cartridge.rs lines 92-99): route by address
range (external RAM, ROM0, ROM1); anything else reads 0xFF. -/
def read (c : Cartidge) (addr : Nat) : Nat :=
  if 0xA000 ≤ addr ∧ addr ≤ 0xBFFF then
    c.readRam ((addr &&& ramAddrMask) + c.ramOff)
  else if addr ≤ 0x3FFF then c.readRom ((addr &&& romAddrMask) + c.rom0Off)
  else if 0x4000 ≤ addr ∧ addr ≤ 0x7FFF then
    c.readRom ((addr &&& romAddrMask) + c.rom1Off)
  else 0xFF

/-- `Cartidge::write_mbc1` (src/cartridge.rs lines 121-143): decode the
MBC1 control write, translate a zero 5-bit ROM bank to 1, and recompute
all three offsets from the registers.  Note the source compares the full
byte with 0xA for RAM enable (`val == 0xA`, not `val & 0xF == 0xA`). -/
def writeMbc1 (c : Cartidge) (addr val : Nat) : Cartidge :=
  let c :=
    if addr ≤ 0x1FFF then { c with ramEnabled := val = 0xA }
    else if addr ≤ 0x3FFF then { c with bankLo := val &&& maskUsize 5 }
    else if addr ≤ 0x5FFF then { c with bankHi := val &&& maskUsize 2 }
    else if addr ≤ 0x7FFF then { c with bankMode := val &&& maskUsize 1 = 1 }
    else c
  let c := if c.bankLo = 0 then { c with bankLo := 1 } else c
  let bank0 := if c.bankMode then c.bankHi else 0
  { c with
      ramOff := bank0 <<< 13, rom0Off := bank0 <<< 19,
      rom1Off := c.bankLo <<< 14 ||| c.bankHi <<< 19 }

/-- `Cartidge::write` (src/cartridge.rs lines 101-119): external-RAM
writes go to RAM (the source does not check `ram_enabled` here); other
addresses are dispatched on the MBC kind.  Kinds other than `None` and
`Mbc1` are `todo!()` in the source and unreachable for any cartridge
`Cartidge::new` accepts; they are modelled as no-ops. -/
def write (c : Cartidge) (addr val : Nat) : Cartidge :=
  if 0xA000 ≤ addr ∧ addr ≤ 0xBFFF then
    c.writeRam ((addr &&& ramAddrMask) + c.ramOff) val
  else
    match c.kind with
    | MbcType.None => c
    | MbcType.Mbc1 => c.writeMbc1 addr val
    | _ => c

/-- The `Ok` result of `Cartidge::new` for an MBC1 cartridge with
`romBanks` 16 KiB ROM banks and `ramBanks` 8 KiB RAM banks: both offsets
at bank 0/1, registers `bank_lo = 1`, `bank_hi = 0`, `bank_mode = 0`. -/
def mbc1New (romBanks : Nat) (rom : Nat → Nat) (ramBanks : Nat) : Cartidge :=
  { isCgb := false, kind := MbcType.Mbc1,
    rom := rom, romLen := romBanks * 16384,
    ram := fun _ => 0, ramLen := ramBanks * 8192,
    rom0Off := 0, rom1Off := 16384, ramOff := 0,
    ramEnabled := false, bankMode := false, bankLo := 1, bankHi := 0 }

/-- Apply a list of `(addr, val)` writes in order. -/
def applyWrites (c : Cartidge) : List (Nat × Nat) → Cartidge
  | [] => c
  | w :: ws => applyWrites (c.write w.1 w.2) ws

end Cartidge

/-- The amended C5 bank/offset relation for MBC1 (the source keeps no
`% bank_count` reduction anywhere): the 0x4000-0x7FFF read offset is
`(bank_lo | bank_hi << 5) * 16 KiB` unreduced, the 0x0000-0x3FFF offset
is 0 in mode 0 and `(bank_hi << 5) * 16 KiB` in mode 1, the external-RAM
offset is bank `bank_hi` only in mode 1, and `bank_lo` is always in
`1..=31`, `bank_hi` in `0..=3`. -/
def mbc1OffsetsOk (c : Cartidge) : Prop :=
  1 ≤ c.bankLo ∧ c.bankLo ≤ 31 ∧ c.bankHi ≤ 3 ∧
  c.rom1Off = (c.bankLo ||| c.bankHi <<< 5) * 16384 ∧
  c.rom0Off = (if c.bankMode then c.bankHi <<< 5 else 0) * 16384 ∧
  c.ramOff = (if c.bankMode then c.bankHi else 0) * 8192

/-- Concrete 2-bank (32 KiB) MBC1 cartridge with ROM bank register
written to 2, used to refute the `% bank_count` part of C5. -/
def c5Cart : Cartidge :=
  Cartidge.applyWrites (Cartidge.mbc1New 2 (fun a => a % 251) 0)
    [(0x2000, 2)]


/-! ## IO register bit-field structs (src/regs.rs) -/

/-- `IntrBits` (`IF`/`IE`) from src/regs.rs:
`vblank:1, stat:1, timer:1, serial:1, joypad:1` from LSB. -/
structure IntrBits where
  vblank : Nat
  stat : Nat
  timer : Nat
  serial : Nat
  joypad : Nat
  deriving Repr, DecidableEq

namespace IntrBits

/-- `IntrBits::read` from the `bit_fields!` macro. -/
def read (i : IntrBits) : Nat :=
  (i.vblank &&& 1) ||| ((i.stat &&& 1) <<< 1) ||| ((i.timer &&& 1) <<< 2) |||
    ((i.serial &&& 1) <<< 3) ||| ((i.joypad &&& 1) <<< 4)

/-- `IntrBits::write` / `IntrBits::new` from the `bit_fields!` macro. -/
def new (v : Nat) : IntrBits :=
  { vblank := v &&& 1, stat := (v >>> 1) &&& 1, timer := (v >>> 2) &&& 1,
    serial := (v >>> 3) &&& 1, joypad := (v >>> 4) &&& 1 }

/-- `IntrBits::masked`: field-wise AND. -/
def masked (i mask : IntrBits) : IntrBits :=
  { vblank := i.vblank &&& mask.vblank, stat := i.stat &&& mask.stat,
    timer := i.timer &&& mask.timer, serial := i.serial &&& mask.serial,
    joypad := i.joypad &&& mask.joypad }

end IntrBits

/-- `LcdCtrl` (`LCDC`) from src/regs.rs, one bit per field from LSB
(the `bg_win_priotity` spelling is the source's). -/
structure LcdCtrl where
  bgWinPriotity : Nat
  objEnable : Nat
  objSize : Nat
  bgTileMap : Nat
  bgWinTileData : Nat
  winEnable : Nat
  winTileMap : Nat
  ppuEnable : Nat
  deriving Repr, DecidableEq

/-- `LcdCtrl::read` from the `bit_fields!` macro. -/
def LcdCtrl.read (l : LcdCtrl) : Nat :=
  (l.bgWinPriotity &&& 1) ||| ((l.objEnable &&& 1) <<< 1) |||
    ((l.objSize &&& 1) <<< 2) ||| ((l.bgTileMap &&& 1) <<< 3) |||
    ((l.bgWinTileData &&& 1) <<< 4) ||| ((l.winEnable &&& 1) <<< 5) |||
    ((l.winTileMap &&& 1) <<< 6) ||| ((l.ppuEnable &&& 1) <<< 7)

/-- `LcdCtrl::write` from the `bit_fields!` macro. -/
def LcdCtrl.write (v : Nat) : LcdCtrl :=
  { bgWinPriotity := v &&& 1, objEnable := (v >>> 1) &&& 1,
    objSize := (v >>> 2) &&& 1, bgTileMap := (v >>> 3) &&& 1,
    bgWinTileData := (v >>> 4) &&& 1, winEnable := (v >>> 5) &&& 1,
    winTileMap := (v >>> 6) &&& 1, ppuEnable := (v >>> 7) &&& 1 }

/-- `LcdStat` (`STAT`) from src/regs.rs:
`ppu_mode:2, ly_eq_lyc:1, mode0:1, mode1:1, mode2:1, lyc_int:1`. -/
structure LcdStat where
  ppuMode : Nat
  lyEqLyc : Nat
  mode0 : Nat
  mode1 : Nat
  mode2 : Nat
  lycInt : Nat
  deriving Repr, DecidableEq

/-- `LcdStat::read` from the `bit_fields!` macro. -/
def LcdStat.read (s : LcdStat) : Nat :=
  (s.ppuMode &&& 3) ||| ((s.lyEqLyc &&& 1) <<< 2) ||| ((s.mode0 &&& 1) <<< 3) |||
    ((s.mode1 &&& 1) <<< 4) ||| ((s.mode2 &&& 1) <<< 5) |||
    ((s.lycInt &&& 1) <<< 6)

/-- `LcdStat::write` from the `bit_fields!` macro. -/
def LcdStat.write (v : Nat) : LcdStat :=
  { ppuMode := v &&& 3, lyEqLyc := (v >>> 2) &&& 1, mode0 := (v >>> 3) &&& 1,
    mode1 := (v >>> 4) &&& 1, mode2 := (v >>> 5) &&& 1,
    lycInt := (v >>> 6) &&& 1 }

/-! ## PPU line fetcher (src/ppu/fetcher.rs) -/

/-- `Pixel` from src/ppu/fetcher.rs. -/
structure Pixel where
  colorId : Nat
  palette : Nat
  isObj : Bool
  bgPriority : Nat
  deriving Repr, DecidableEq

/-- `Pixel::default()`: all fields zero. -/
def Pixel.zero : Pixel :=
  { colorId := 0, palette := 0, isObj := false, bgPriority := 0 }

/-- `OamAttrs` bit fields from src/ppu/fetcher.rs:
`cgb_palette:3, bank:1, dmg_palette:1, xflip:1, yflip:1, bg_priority:1`. -/
structure OamAttrs where
  cgbPalette : Nat
  bank : Nat
  dmgPalette : Nat
  xflip : Nat
  yflip : Nat
  bgPriority : Nat
  deriving Repr, DecidableEq

/-- `OamAttrs::new` from the `bit_fields!` macro. -/
def OamAttrs.new (v : Nat) : OamAttrs :=
  { cgbPalette := v &&& 7, bank := (v >>> 3) &&& 1,
    dmgPalette := (v >>> 4) &&& 1, xflip := (v >>> 5) &&& 1,
    yflip := (v >>> 6) &&& 1, bgPriority := (v >>> 7) &&& 1 }

/-- `OamEntry` from src/ppu/fetcher.rs. -/
structure OamEntry where
  ypos : Nat
  xpos : Nat
  tileId : Nat
  attrs : OamAttrs
  deriving Repr, DecidableEq

/-- `OamEntry::from_array`. -/
def OamEntry.fromArray (a0 a1 a2 a3 : Nat) : OamEntry :=
  { ypos := a0, xpos := a1, tileId := a2, attrs := OamAttrs.new a3 }

/-- `BgMapAttr` bit fields from src/ppu/fetcher.rs (CGB background map
attributes): `palette:3, bank:1, _0:1, xflip:1, yflip:1, priority:1`. -/
structure BgMapAttr where
  palette : Nat
  bank : Nat
  xflip : Nat
  yflip : Nat
  priority : Nat
  deriving Repr, DecidableEq

/-- `BgMapAttr::new` from the `bit_fields!` macro. -/
def BgMapAttr.new (v : Nat) : BgMapAttr :=
  { palette := v &&& 7, bank := (v >>> 3) &&& 1, xflip := (v >>> 5) &&& 1,
    yflip := (v >>> 6) &&& 1, priority := (v >>> 7) &&& 1 }

/-- `FetcherState` from src/ppu/fetcher.rs. -/
inductive FetcherState where
  | GetTileId
  | GetTileLow
  | GetTileHigh
  | PushPixels
  deriving Repr, DecidableEq

/-- `TileLine` from src/ppu/fetcher.rs. -/
structure TileLine where
  id : Nat
  low : Nat
  high : Nat
  bank : Nat
  palette : Nat
  line : Nat
  priority : Nat
  xflip : Bool
  yflip : Bool
  deriving Repr, DecidableEq

/-- `TileLine::default()`. -/
def TileLine.zero : TileLine :=
  { id := 0, low := 0, high := 0, bank := 0, palette := 0, line := 0,
    priority := 0, xflip := false, yflip := false }

/-- `LineFetcher` from src/ppu/fetcher.rs.  The two 8 KiB VRAM banks are
modelled as a curried function `bank -> offset -> byte`; the pixel FIFO
(`VecDeque`) and the object/screen-line vectors as lists. -/
structure LineFetcher where
  objects : List OamEntry
  screenLine : List Pixel
  is2x : Bool
  vram : Nat → Nat → Nat
  lcdc : LcdCtrl
  scx : Nat
  scy : Nat
  wx : Nat
  wy : Nat
  fifo : List Pixel
  state : FetcherState
  drawX : Nat
  fetchX : Nat
  line : Nat
  winY : Nat
  tileExtraPixels : Nat
  window : Bool
  object : Option OamEntry
  tile : TileLine

/-- `tile_color_id` from src/ppu/fetcher.rs: bit 7 is the leftmost pixel. -/
def tileColorId (low hi column : Nat) : Nat :=
  ((low >>> (7 - column)) &&& 1) ||| (((hi >>> (7 - column)) &&& 1) <<< 1)

/-- `u8::reverse_bits`, used for X-flipped tile rows. -/
def reverseBits8 (x : Nat) : Nat :=
  ((x &&& 1) <<< 7) ||| (((x >>> 1) &&& 1) <<< 6) ||| (((x >>> 2) &&& 1) <<< 5) |||
    (((x >>> 3) &&& 1) <<< 4) ||| (((x >>> 4) &&& 1) <<< 3) |||
    (((x >>> 5) &&& 1) <<< 2) ||| (((x >>> 6) &&& 1) <<< 1) ||| ((x >>> 7) &&& 1)

/-- `tile_data_vram_addr` from src/ppu/fetcher.rs, already relative to
the start of VRAM (the source subtracts `ADDR_VRAM.start()`): addressing
mode 0 is a signed offset from 0x9000, mode 1 unsigned from 0x8000.  The
`panic!` arm is unreachable for a 1-bit addressing mode. -/
def tileDataVramAddr (addrMode tileId : Nat) : Nat :=
  match addrMode with
  | 0 => if tileId < 128 then 0x1000 + tileId * 16 else 0x1000 - (256 - tileId) * 16
  | _ => tileId * 16

/-- `tile_id_vram_addr` from src/ppu/fetcher.rs. -/
def tileIdVramAddr (tileMap tx ty : Nat) : Nat :=
  (match tileMap with
   | 0 => 0x9800
   | _ => 0x9C00) + ty * 32 + tx - 0x8000

/-- `read_tile_line` from src/ppu/fetcher.rs: read one tile row (low and
high byte), honouring Y-flip and X-flip. -/
def readTileLine (vram : Nat → Nat → Nat) (addrMode bank id yoffset : Nat)
    (yflip xflip : Bool) : Nat × Nat :=
  let yoff := if yflip then 7 - yoffset else yoffset
  let addr := tileDataVramAddr addrMode id
  let l := vram bank (addr + 2 * yoff)
  let h := vram bank (addr + 2 * yoff + 1)
  if xflip then (reverseBits8 l, reverseBits8 h) else (l, h)

/-- `read_tile_info` from src/ppu/fetcher.rs: tile id from VRAM bank 0,
attributes from bank 1 (disabled outside CGB mode). -/
def readTileInfo (is2x : Bool) (vram : Nat → Nat → Nat)
    (tileMap tx ty : Nat) : TileLine :=
  let addr := tileIdVramAddr tileMap tx ty
  let id := vram 0 addr
  let attrs := BgMapAttr.new (if is2x then vram 1 addr else 0)
  { TileLine.zero with
      id := id, bank := attrs.bank, xflip := attrs.xflip = 1,
      yflip := attrs.yflip = 1, priority := attrs.priority }

/-- `tile_info_from_obj` from src/ppu/fetcher.rs. -/
def tileInfoFromObj (isCgb : Bool) (obj : OamEntry) : TileLine :=
  let pb : Nat × Nat :=
    if isCgb then (obj.attrs.cgbPalette, obj.attrs.bank)
    else (obj.attrs.dmgPalette, 0)
  { TileLine.zero with
      id := obj.tileId, bank := pb.2, palette := pb.1,
      priority := obj.attrs.bgPriority, xflip := obj.attrs.xflip = 1,
      yflip := obj.attrs.yflip = 1 }

/-- `is_obj_priority` from src/ppu/fetcher.rs (lines 462-477): does the
object pixel win over the already drawn BG/window/object pixel? -/
def isObjPriority (isCgb : Bool) (lcdc : LcdCtrl) (old : Pixel)
    (obj : OamEntry) : Bool :=
  if old.isObj then false
  else if old.colorId = 0 then true
  else if ¬ isCgb then obj.attrs.bgPriority = 0
  else lcdc.bgWinPriotity = 0 ∨ (old.bgPriority = 0 ∧ obj.attrs.bgPriority = 0)

/-- `pop_obj_at` from src/ppu/fetcher.rs: remove and return the first
object in the list lying on column `xpos`. -/
def popObjAt : List OamEntry → Nat → List OamEntry × Option OamEntry
  | [], _ => ([], none)
  | o :: os, xpos =>
    if o.xpos ≤ xpos + 8 ∧ xpos + 8 < o.xpos + 8 then (os, some o)
    else
      let r := popObjAt os xpos
      (o :: r.1, r.2)

/-- Stable insertion of an OAM entry by X-position (helper for the
`sort_by` call in `LineFetcher::new_line`). -/
def insertByXpos (o : OamEntry) : List OamEntry → List OamEntry
  | [] => [o]
  | p :: ps => if p.xpos ≤ o.xpos then p :: insertByXpos o ps else o :: p :: ps

/-- `Vec::sort_by(|a, b| a.xpos.cmp(&b.xpos))`: stable sort on xpos. -/
def sortByXpos (l : List OamEntry) : List OamEntry :=
  l.foldr insertByXpos []

namespace LineFetcher

/-- `LineFetcher::new`. -/
def new : LineFetcher :=
  { objects := [], screenLine := [], is2x := false, vram := fun _ _ => 0,
    lcdc := LcdCtrl.write 0, scx := 0, scy := 0, wx := 0, wy := 0,
    fifo := [], state := FetcherState.GetTileId, drawX := 0, fetchX := 0,
    line := 0, winY := 0, tileExtraPixels := 0, window := false,
    object := none, tile := TileLine.zero }

/-- `LineFetcher::is_done`: all 160 pixels of the line emitted. -/
def isDone (f : LineFetcher) : Bool :=
  160 ≤ f.screenLine.length

/-- `LineFetcher::get_tile_map_num`. -/
def getTileMapNum (f : LineFetcher) : Nat :=
  if f.window then f.lcdc.winTileMap else f.lcdc.bgTileMap

/-- `LineFetcher::mix_obj_pixel` (src/ppu/fetcher.rs lines 389-407): mix
the current object's pixel `obj_px_idx` over the old pixel.  Object
color 0 is transparent.  The source unwraps `self.object`; the `none`
case is unreachable at the call sites. -/
def mixObjPixel (f : LineFetcher) (isCgb : Bool) (old : Pixel)
    (objPxIdx : Nat) : Pixel :=
  match f.object with
  | none => old
  | some obj =>
    let px : Pixel :=
      { palette := f.tile.palette,
        colorId := tileColorId f.tile.low f.tile.high objPxIdx,
        bgPriority := 0, isObj := true }
    if px.colorId ≠ 0 ∧ isObjPriority isCgb f.lcdc old obj then px else old

/-- `LineFetcher::fetch_tile_id` (BG/window tile). -/
def fetchTileId (f : LineFetcher) : LineFetcher × FetcherState :=
  let tileMap := f.getTileMapNum
  let txy : Nat × Nat :=
    if f.window then (f.fetchX / 8, f.winY)
    else ((f.scx / 8 + f.fetchX / 8) % 32, (f.scy + f.line) % 256)
  let tile := readTileInfo f.is2x f.vram tileMap txy.1 (txy.2 / 8)
  ({ f with tile := { tile with line := txy.2 % 8 } }, FetcherState.GetTileLow)

/-- `LineFetcher::fetch_tile_id_obj` (object tile, including the tall
8x16 tile-pair selection). -/
def fetchTileIdObj (f : LineFetcher) : LineFetcher × FetcherState :=
  match f.object with
  | none => (f, FetcherState.GetTileLow)
  | some obj =>
    let tile := tileInfoFromObj f.is2x obj
    let tile :=
      if f.lcdc.objSize = 1 then
        let isSecond : Bool := f.line + 16 - obj.ypos > 8
        if isSecond = tile.yflip then { tile with id := tile.id &&& 0xFE }
        else { tile with id := tile.id ||| 1 }
      else tile
    let tile := { tile with line := (f.line % 8 + 8 - obj.ypos % 8) % 8 }
    ({ f with tile := tile }, FetcherState.GetTileLow)

/-- `LineFetcher::fetch_tile_low`: all data is read in the next step. -/
def fetchTileLow (f : LineFetcher) : LineFetcher × FetcherState :=
  (f, FetcherState.GetTileHigh)

/-- `LineFetcher::fetch_tile_high`. -/
def fetchTileHigh (f : LineFetcher) : LineFetcher × FetcherState :=
  let addrMode := if f.object.isSome then 1 else f.lcdc.bgWinTileData
  let lh := readTileLine f.vram addrMode f.tile.bank f.tile.id f.tile.line
    f.tile.yflip f.tile.xflip
  ({ f with tile := { f.tile with low := lh.1, high := lh.2 } },
    FetcherState.PushPixels)

/-- `LineFetcher::push_pixels`: push one 8-pixel BG/window tile row into
the FIFO once it has room (at most 8 pixels in it). -/
def pushPixels (f : LineFetcher) : LineFetcher × FetcherState :=
  if 8 < f.fifo.length then (f, FetcherState.PushPixels)
  else
    let pxs := (List.range 8).map fun i =>
      { colorId :=
          if ¬ f.is2x ∧ f.lcdc.bgWinPriotity = 0 then 0
          else tileColorId f.tile.low f.tile.high i,
        palette := f.tile.palette, bgPriority := f.tile.priority,
        isObj := false : Pixel }
    ({ f with fifo := f.fifo ++ pxs, fetchX := (f.fetchX + 8) % 256 },
      FetcherState.GetTileId)

/-- `LineFetcher::push_pixels_obj`: mix the fetched object row over the
first FIFO pixels, clipping the part that is off-screen to the left. -/
def pushPixelsObj (f : LineFetcher) : LineFetcher × FetcherState :=
  match f.object with
  | none => (f, FetcherState.GetTileId)
  | some obj =>
    let xclip := if obj.xpos < 8 then 8 - obj.xpos else 0
    let f := (List.range 8).foldl
      (fun acc x =>
        if xclip ≤ x then
          let oldIdx := x - xclip
          let px := acc.mixObjPixel acc.is2x (acc.fifo.getD oldIdx Pixel.zero) x
          { acc with fifo := acc.fifo.set oldIdx px }
        else acc)
      f
    ({ f with object := none }, FetcherState.GetTileId)

/-- The final pop-and-emit step of `LineFetcher::pop_pixel_checked`.
The source unwraps the popped pixel; the FIFO is non-empty whenever this
runs. -/
def popFront (f : LineFetcher) : LineFetcher :=
  match f.fifo with
  | [] => f
  | px :: rest =>
    { f with fifo := rest, screenLine := f.screenLine ++ [px],
             drawX := (f.drawX + 1) % 256 }

/-- `LineFetcher::pop_pixel_checked` (src/ppu/fetcher.rs lines 331-364):
emit one pixel unless a window switch or an object fetch intervenes. -/
def popPixelChecked (f : LineFetcher) : LineFetcher :=
  if f.fifo.length ≤ 8 ∨ f.object.isSome then f
  else if ¬ f.window ∧ f.lcdc.winEnable = 1 ∧
      f.wx ≤ f.drawX + 7 ∧ f.wy ≤ f.line then
    { f with fetchX := f.drawX - (max 7 f.wx - 7), window := true, fifo := [] }
  else if f.lcdc.objEnable = 1 then
    let r := popObjAt f.objects f.drawX
    match r.2 with
    | some obj =>
      { f with objects := r.1, object := some obj,
               state := FetcherState.GetTileId }
    | none => f.popFront
  else f.popFront

/-- `LineFetcher::push_pixels_to_line`: discard the `SCX % 8` sub-tile
scroll pixels first, then try to emit two pixels per 2-dot tick. -/
def pushPixelsToLine (f : LineFetcher) : LineFetcher :=
  if f.fifo.length ≤ 8 then f
  else if 0 < f.tileExtraPixels then
    { f with fifo := f.fifo.drop f.tileExtraPixels, tileExtraPixels := 0 }
  else (f.popPixelChecked).popPixelChecked

/-- `LineFetcher::tick_2_dots` (src/ppu/fetcher.rs lines 122-154). -/
def tick2Dots (f : LineFetcher) : LineFetcher :=
  let f := f.pushPixelsToLine
  let r :=
    match f.state with
    | FetcherState.GetTileId =>
      if f.object.isSome then f.fetchTileIdObj else f.fetchTileId
    | FetcherState.GetTileLow => f.fetchTileLow
    | FetcherState.GetTileHigh => f.fetchTileHigh
    | FetcherState.PushPixels =>
      if f.object.isSome then f.pushPixelsObj else f.pushPixels
  { r.1 with state := r.2 }

/-- `LineFetcher::new_line` (src/ppu/fetcher.rs lines 159-184): advance
the window line counter, then clear all per-line state.  Note the
`sort_by` on `objects` runs after `objects.clear()`, so it always sorts
an empty list (the non-CGB X-position ordering is dead code in the
source). -/
def newLine (f : LineFetcher) (line : Nat) : LineFetcher :=
  let f :=
    if line = 0 then { f with winY := 0 }
    else if f.window then { f with winY := f.winY + 1 }
    else f
  let f := { f with
    fifo := [], objects := [], screenLine := [], object := none,
    window := false, fetchX := 0, drawX := 0, line := line,
    tileExtraPixels := f.scx % 8, state := FetcherState.GetTileId }
  if ¬ f.is2x then { f with objects := sortByXpos f.objects } else f

end LineFetcher

/-! ## PPU (src/ppu.rs) -/

/-- `PpuMode` from src/ppu.rs; the numeric values are
HBlank 0, VBlank 1, Scan 2, Draw 3. -/
inductive PpuMode where
  | HBlank
  | VBlank
  | Scan
  | Draw
  deriving Repr, DecidableEq

/-- The `as u8` value of a `PpuMode` (`MODE_*` constants in src/info.rs). -/
def PpuMode.num : PpuMode → Nat
  | PpuMode.HBlank => 0
  | PpuMode.VBlank => 1
  | PpuMode.Scan => 2
  | PpuMode.Draw => 3

/-- `PPU_HSCAN_DOTS` from src/ppu.rs: dots per scan-line. -/
def ppuHscanDots : Nat := 456

/-- `PPU_DRAW_LINES = SCREEN_RESOLUTION.1` from src/ppu.rs. -/
def ppuDrawLines : Nat := 144

/-- `PPU_VBLANK_LINES` from src/ppu.rs. -/
def ppuVblankLines : Nat := 10

/-- `Ppu` struct from src/ppu.rs.  OAM and the CGB palette RAMs are
modelled as functions; the double-buffered `frame` stores the raw
`Pixel` per (buffer, x, y) — the monochrome palette tables that map
pixels to RGB live in src/ppu/palettes.rs, which is not part of the
source tree, and no claim depends on the RGB mapping. -/
structure Ppu where
  fetcher : LineFetcher
  oam : Nat → Nat
  bgPalette : Nat → Nat
  objPalette : Nat → Nat
  stat : LcdStat
  ly : Nat
  lyc : Nat
  bgp : Nat
  obp0 : Nat
  obp1 : Nat
  dmgPaletteId : Nat
  mode : PpuMode
  frames : Nat → Nat → Nat → Pixel
  frameIdx : Nat
  dotsLeft : Nat
  dotsInLine : Nat
  statIntrLine : Bool

/-- `get_oam_entry` from src/ppu.rs. -/
def getOamEntry (oam : Nat → Nat) (idx : Nat) : OamEntry :=
  OamEntry.fromArray (oam (idx * 4)) (oam (idx * 4 + 1)) (oam (idx * 4 + 2))
    (oam (idx * 4 + 3))

/-- `calc_stat_interrupt` from src/ppu.rs: OR of all STAT interrupt
sources. -/
def calcStatInterrupt (stat : LcdStat) (mode : PpuMode) (lyc ly : Nat) : Bool :=
  let ret : Bool := stat.lycInt = 1 ∧ lyc = ly
  match mode with
  | PpuMode.HBlank => if stat.mode0 = 1 then true else ret
  | PpuMode.VBlank => if stat.mode1 = 1 then true else ret
  | PpuMode.Scan => if stat.mode2 = 1 then true else ret
  | PpuMode.Draw => ret

namespace Ppu

/-- `Ppu::new`. -/
def new : Ppu :=
  { fetcher := LineFetcher.new, oam := fun _ => 0, bgPalette := fun _ => 0,
    objPalette := fun _ => 0, stat := LcdStat.write 0, ly := 0, lyc := 0,
    bgp := 0, obp0 := 0, obp1 := 0, dmgPaletteId := 0, mode := PpuMode.Scan,
    frames := fun _ _ _ => Pixel.zero, frameIdx := 0, dotsLeft := 0,
    dotsInLine := 0, statIntrLine := false }

/-- `Ppu::reset` (PPU disabled). -/
def reset (p : Ppu) : Ppu :=
  { p with stat := { p.stat with ppuMode := 0 }, ly := 0, dotsInLine := 0,
           mode := PpuMode.Scan }

/-- `Ppu::eat_dots` (src/ppu.rs lines 236-252): consume as many dots as
possible without overflowing into the next scan-line; on reaching 456
dots the line ends, LY is incremented and `dots_in_line` resets. -/
def eatDots (p : Ppu) (dots : Nat) : Ppu × Bool :=
  let r := p.dotsInLine + dots
  if ppuHscanDots ≤ r then
    ({ p with dotsLeft := p.dotsLeft - (dots - (r - ppuHscanDots)),
              dotsInLine := 0, ly := p.ly + 1 }, true)
  else
    ({ p with dotsInLine := r, dotsLeft := p.dotsLeft - dots }, false)

/-- `Ppu::step_scan` (src/ppu.rs lines 131-163): 2 dots per step; on the
first step of the line the fetcher is reset and all 40 OAM entries are
scanned at once (at most 10 on-line objects buffered); after 80 dots the
mode becomes Draw. -/
def stepScan (p : Ppu) : Ppu × PpuMode :=
  let idx := p.dotsInLine / 2
  let p := (p.eatDots 2).1
  if idx = 40 then (p, PpuMode.Draw)
  else if idx ≠ 0 then (p, PpuMode.Scan)
  else
    let f := p.fetcher.newLine p.ly
    let f := (List.range 40).foldl
      (fun facc i =>
        let obj := getOamEntry p.oam i
        let height := if facc.lcdc.objSize = 1 then 16 else 8
        if facc.objects.length < 10 ∧ obj.ypos ≤ p.ly + 16 ∧
            p.ly + 16 < obj.ypos + height then
          { facc with objects := facc.objects ++ [obj] }
        else facc)
      f
    ({ p with fetcher := f }, PpuMode.Scan)

/-- `Ppu::step_draw` (src/ppu.rs lines 165-182): 2 dots per step, one
fetcher tick; once the line is done its pixels are copied into the
current frame buffer and the mode becomes HBlank. -/
def stepDraw (p : Ppu) : Ppu × PpuMode :=
  let p := (p.eatDots 2).1
  let p := { p with fetcher := p.fetcher.tick2Dots }
  if p.fetcher.isDone then
    let p := { p with
      frames := fun fi x y =>
        if fi = p.frameIdx ∧ x < 160 ∧ y = p.ly then
          p.fetcher.screenLine.getD x Pixel.zero
        else p.frames fi x y }
    (p, PpuMode.HBlank)
  else (p, PpuMode.Draw)

/-- `Ppu::step_hblank` (src/ppu.rs lines 184-197): eat the rest of the
line; on the line end go to VBlank (swapping frame buffers) when LY has
reached 144, else back to Scan. -/
def stepHblank (p : Ppu) : Ppu × PpuMode :=
  let r := p.eatDots p.dotsLeft
  if r.2 then
    if r.1.ly = ppuDrawLines then
      ({ r.1 with frameIdx := 1 - r.1.frameIdx }, PpuMode.VBlank)
    else (r.1, PpuMode.Scan)
  else (r.1, PpuMode.HBlank)

/-- `Ppu::step_vblank` (src/ppu.rs lines 199-209): eat dots; when LY has
passed line 153 (`ly == 154`), wrap LY to 0 and start the next frame in
Scan mode. -/
def stepVblank (p : Ppu) : Ppu × PpuMode :=
  let p := (p.eatDots p.dotsLeft).1
  if p.ly = ppuDrawLines + ppuVblankLines then
    ({ p with dotsInLine := 0, ly := 0 }, PpuMode.Scan)
  else (p, PpuMode.VBlank)

/-- `Ppu::update_lcd_state` (src/ppu.rs lines 213-232): raise the VBlank
interrupt on entry into VBlank, the STAT interrupt on a low-to-high
transition of the combined STAT line, and publish mode and LY=LYC into
STAT. -/
def updateLcdState (p : Ppu) (newMode : PpuMode) : Ppu × IntrBits :=
  let vb : Nat := if newMode ≠ p.mode ∧ newMode = PpuMode.VBlank then 1 else 0
  let newLine := calcStatInterrupt p.stat p.mode p.lyc p.ly
  let st : Nat := if ¬ p.statIntrLine ∧ newLine then 1 else 0
  let iflag := { IntrBits.new 0 with vblank := vb, stat := st }
  ({ p with
      statIntrLine := newLine,
      stat := { p.stat with
          ppuMode := newMode.num,
          lyEqLyc := if p.lyc = p.ly then 1 else 0 },
      mode := newMode }, iflag)

/-- One iteration of the `while dots_left > 0` loop of `Ppu::tick`,
fuelled: each iteration consumes at least one dot for every state the
PPU actually reaches, so fuel `dots_left` suffices. -/
def tickLoop : Nat → Ppu → IntrBits → Ppu × IntrBits
  | 0, p, acc => (p, acc)
  | fuel + 1, p, acc =>
    if p.dotsLeft = 0 then (p, acc)
    else
      let r :=
        match p.mode with
        | PpuMode.HBlank => p.stepHblank
        | PpuMode.VBlank => p.stepVblank
        | PpuMode.Scan => p.stepScan
        | PpuMode.Draw => p.stepDraw
      let s := r.1.updateLcdState r.2
      tickLoop fuel s.1 (IntrBits.new (acc.read ||| s.2.read))

/-- `Ppu::tick` (src/ppu.rs lines 85-109): if the PPU is disabled, reset
and report no interrupts; otherwise bank the dots and run steps until
`dots_left` is exhausted. -/
def tick (p : Ppu) (dots : Nat) : Ppu × IntrBits :=
  if p.fetcher.lcdc.ppuEnable = 0 then (p.reset, IntrBits.new 0)
  else
    let p := { p with dotsLeft := p.dotsLeft + dots }
    tickLoop p.dotsLeft p (IntrBits.new 0)

end Ppu


/-! ## Remaining IO registers (src/regs.rs) -/

/-- `JoyPad` register from src/regs.rs:
`state:4, select_dpad:1, select_buttons:1`. -/
structure JoyPad where
  state : Nat
  selectDpad : Nat
  selectButtons : Nat
  deriving Repr, DecidableEq

/-- `JoyPad::read` from the `bit_fields!` macro. -/
def JoyPad.read (j : JoyPad) : Nat :=
  (j.state &&& 0xF) ||| ((j.selectDpad &&& 1) <<< 4) |||
    ((j.selectButtons &&& 1) <<< 5)

/-- `JoyPad::write` from the `bit_fields!` macro. -/
def JoyPad.write (v : Nat) : JoyPad :=
  { state := v &&& 0xF, selectDpad := (v >>> 4) &&& 1,
    selectButtons := (v >>> 5) &&& 1 }

/-- `DPad` register from src/regs.rs: `right:1, left:1, up:1, down:1`. -/
structure DPad where
  right : Nat
  left : Nat
  up : Nat
  down : Nat
  deriving Repr, DecidableEq

/-- `DPad::read` from the `bit_fields!` macro. -/
def DPad.read (d : DPad) : Nat :=
  (d.right &&& 1) ||| ((d.left &&& 1) <<< 1) ||| ((d.up &&& 1) <<< 2) |||
    ((d.down &&& 1) <<< 3)

/-- `ActionButtons` register from src/regs.rs:
`a:1, b:1, select:1, start:1`. -/
structure ActionButtons where
  a : Nat
  b : Nat
  select : Nat
  start : Nat
  deriving Repr, DecidableEq

/-- `ActionButtons::read` from the `bit_fields!` macro. -/
def ActionButtons.read (x : ActionButtons) : Nat :=
  (x.a &&& 1) ||| ((x.b &&& 1) <<< 1) ||| ((x.select &&& 1) <<< 2) |||
    ((x.start &&& 1) <<< 3)

/-- `CgbPaletteIndex` from src/regs.rs: `addr:6, _0:1, auto_inc:1`. -/
structure CgbPaletteIndex where
  addr : Nat
  pad0 : Nat
  autoInc : Nat
  deriving Repr, DecidableEq

/-- `CgbPaletteIndex::read` from the `bit_fields!` macro. -/
def CgbPaletteIndex.read (p : CgbPaletteIndex) : Nat :=
  (p.addr &&& 0x3F) ||| ((p.pad0 &&& 1) <<< 6) ||| ((p.autoInc &&& 1) <<< 7)

/-- `CgbPaletteIndex::write` from the `bit_fields!` macro. -/
def CgbPaletteIndex.write (v : Nat) : CgbPaletteIndex :=
  { addr := v &&& 0x3F, pad0 := (v >>> 6) &&& 1, autoInc := (v >>> 7) &&& 1 }

/-- `Key1` register from src/regs.rs: `armed:1, _1:6, speed:1`. -/
structure Key1 where
  armed : Nat
  pad1 : Nat
  speed : Nat
  deriving Repr, DecidableEq

/-- `Key1::read` from the `bit_fields!` macro. -/
def Key1.read (k : Key1) : Nat :=
  (k.armed &&& 1) ||| ((k.pad1 &&& 0x3F) <<< 1) ||| ((k.speed &&& 1) <<< 7)

/-- `Key1::write` from the `bit_fields!` macro. -/
def Key1.write (v : Nat) : Key1 :=
  { armed := v &&& 1, pad1 := (v >>> 1) &&& 0x3F, speed := (v >>> 7) &&& 1 }

/-- Modelled from the spec: the `Rp` (infrared port, FF56) register used
by src/mem.rs is declared in a part of src/regs.rs that is not in the
tree; the spec treats it as a plain byte register with masked writes, so
it is modelled as one byte. -/
structure Rp where
  value : Nat
  deriving Repr, DecidableEq

/-- `Rp::read`. -/
def Rp.read (r : Rp) : Nat := r.value

/-- `Rp::write`. -/
def Rp.write (v : Nat) : Rp := { value := v }

/-! ## MMU (src/mem.rs) -/

/-- `OamDma` from src/mem.rs: an in-flight OAM DMA transfer. -/
structure OamDma where
  src : Nat
  copied : Nat
  count : Nat
  deriving Repr, DecidableEq

/-- `Mmu` struct from src/mem.rs.  WRAM (8 banks of 4 KiB) and HRAM are
modelled as functions. -/
structure Mmu where
  is2x : Bool
  ppu : Ppu
  timer : Timer
  serial : Serial
  cart : Cartidge
  key1 : Key1
  iflag : IntrBits
  ienable : IntrBits
  joypad : JoyPad
  bgpi : CgbPaletteIndex
  obpi : CgbPaletteIndex
  opri : Nat
  dma : Nat
  rp : Rp
  wramIdx : Nat
  vramIdx : Nat
  wram : Nat → Nat → Nat
  hram : Nat → Nat
  dpad : DPad
  buttons : ActionButtons
  oamDma : Option OamDma

/-- `is_cart_addr` from src/mem.rs. -/
def isCartAddr (addr : Nat) : Bool :=
  addr ≤ 0x7FFF ∨ (0xA000 ≤ addr ∧ addr ≤ 0xBFFF)

namespace Mmu

/-- `Mmu::read_reg` (src/mem.rs lines 165-230). -/
def readReg (m : Mmu) (addr : Nat) : Nat :=
  if addr = 0xFF00 then m.joypad.read
  else if addr = 0xFF01 then m.serial.sb
  else if addr = 0xFF02 then m.serial.sc.read
  else if addr = 0xFF04 then m.timer.getDiv
  else if addr = 0xFF05 then m.timer.tima
  else if addr = 0xFF06 then m.timer.tma
  else if addr = 0xFF07 then m.timer.tac.read
  else if addr = 0xFF0F then m.iflag.read
  else if addr = 0xFFFF then m.ienable.read
  else if addr = 0xFF40 then m.ppu.fetcher.lcdc.read
  else if addr = 0xFF41 then m.ppu.stat.read
  else if addr = 0xFF42 then m.ppu.fetcher.scy
  else if addr = 0xFF43 then m.ppu.fetcher.scx
  else if addr = 0xFF44 then m.ppu.ly
  else if addr = 0xFF45 then m.ppu.lyc
  else if addr = 0xFF4A then m.ppu.fetcher.wy
  else if addr = 0xFF4B then m.ppu.fetcher.wx
  else if addr = 0xFF47 then m.ppu.bgp
  else if addr = 0xFF48 then m.ppu.obp0
  else if addr = 0xFF49 then m.ppu.obp1
  else if addr = 0xFF68 then m.bgpi.read
  else if addr = 0xFF69 then m.ppu.bgPalette m.bgpi.addr
  else if addr = 0xFF6A then m.obpi.read
  else if addr = 0xFF6B then m.ppu.objPalette m.obpi.addr
  else if addr = 0xFF6C then m.opri
  else if addr = 0xFF70 then m.wramIdx
  else if addr = 0xFF4F then m.vramIdx
  else if addr = 0xFF46 then m.dma
  else if addr = 0xFF4D then m.key1.read
  else if addr = 0xFF56 then m.rp.read
  else 0

/-- `Mmu::read` (src/mem.rs lines 103-123): route by address range.
Echo RAM reads recurse into WRAM at `(rel & 0x1FFF) + 0xC000`, which is
inlined here (the target is always a WRAM address). -/
def read (m : Mmu) (addr : Nat) : Nat :=
  if isCartAddr addr then m.cart.read addr
  else if 0x8000 ≤ addr ∧ addr ≤ 0x9FFF then
    m.ppu.fetcher.vram m.vramIdx (addr - 0x8000)
  else if 0xC000 ≤ addr ∧ addr ≤ 0xCFFF then m.wram 0 (addr - 0xC000)
  else if 0xD000 ≤ addr ∧ addr ≤ 0xDFFF then m.wram m.wramIdx (addr - 0xD000)
  else if 0xE000 ≤ addr ∧ addr ≤ 0xFDFF then
    let e := ((addr - 0xE000) &&& 0x1FFF) + 0xC000
    if e ≤ 0xCFFF then m.wram 0 (e - 0xC000) else m.wram m.wramIdx (e - 0xD000)
  else if 0xFE00 ≤ addr ∧ addr ≤ 0xFE9F then m.ppu.oam (addr - 0xFE00)
  else if 0xFEA0 ≤ addr ∧ addr ≤ 0xFEFF then 0
  else if 0xFF80 ≤ addr ∧ addr ≤ 0xFFFE then m.hram (addr - 0xFF80)
  else if 0xFF00 ≤ addr ∧ addr ≤ 0xFF7F then m.readReg addr
  else if addr = 0xFFFF then m.readReg addr
  else 0

/-- `Mmu::add_interrupt`: OR the given bits into IF. -/
def addInterrupt (m : Mmu) (i : IntrBits) : Mmu :=
  { m with iflag := IntrBits.new (m.iflag.read ||| i.read) }

/-- `Mmu::update_joypad` (src/mem.rs lines 345-366): recompute the lower
nibble from the select bits, raise the JOYPAD interrupt on any 1-to-0
transition, and store the new button state. -/
def updateJoypad (m : Mmu) (dpad : DPad) (btns : ActionButtons) : Mmu :=
  let n0 : Nat := 0xF
  let n1 := if m.joypad.selectDpad = 0 then n0 &&& (0xFF ^^^ dpad.read) else n0
  let n2 := if m.joypad.selectButtons = 0 then n1 &&& (0xFF ^^^ btns.read) else n1
  let m :=
    if (m.joypad.state &&& (0xFF ^^^ n2)) &&& 0xF ≠ 0 then
      m.addInterrupt { IntrBits.new 0 with joypad := 1 }
    else m
  { m with joypad := { m.joypad with state := n2 }, dpad := dpad,
           buttons := btns }

/-- `Mmu::start_dma` (src/mem.rs lines 377-391), exactly as written in
the source: `src = ((addr as usize) % 0xDF) << 4` — note the shift by 4,
although the comment above it says the written value is the high byte of
the 16-bit source address (which would be `<< 8`). -/
def startDma (m : Mmu) (addr : Nat) : Mmu :=
  let src := (addr % 0xDF) <<< 4
  { m with oamDma := some { src := src, copied := 0, count := 160 },
           dma := addr }

/-- `Mmu::write_reg` (src/mem.rs lines 236-335): masked register writes
plus their side actions.  `IO_DIV` resets the timer divider (the written
value is ignored). -/
def writeReg (m : Mmu) (addr val : Nat) : Mmu :=
  if addr = 0xFF00 then
    let m := { m with joypad := JoyPad.write ((m.joypad.read &&& 0xF) ||| (val &&& 0xF0)) }
    m.updateJoypad m.dpad m.buttons
  else if addr = 0xFF01 then { m with serial := { m.serial with sb := val } }
  else if addr = 0xFF02 then
    { m with serial := { m.serial with
        sc := SerialCtrl.write ((m.serial.sc.read &&& 0x7C) ||| (val &&& 0x83)) } }
  else if addr = 0xFF04 then { m with timer := m.timer.resetDiv }
  else if addr = 0xFF05 then { m with timer := { m.timer with tima := val } }
  else if addr = 0xFF06 then { m with timer := { m.timer with tma := val } }
  else if addr = 0xFF07 then { m with timer := { m.timer with tac := TimerCtrl.write val } }
  else if addr = 0xFF0F then
    { m with iflag := IntrBits.new ((m.iflag.read &&& 0xE0) ||| (val &&& 0x1F)) }
  else if addr = 0xFFFF then
    { m with ienable := IntrBits.new ((m.ienable.read &&& 0xE0) ||| (val &&& 0x1F)) }
  else if addr = 0xFF40 then
    { m with ppu := { m.ppu with fetcher := { m.ppu.fetcher with lcdc := LcdCtrl.write val } } }
  else if addr = 0xFF41 then
    { m with ppu := { m.ppu with
        stat := LcdStat.write ((m.ppu.stat.read &&& 0x7) ||| (val &&& 0xF8)) } }
  else if addr = 0xFF42 then
    { m with ppu := { m.ppu with fetcher := { m.ppu.fetcher with scy := val } } }
  else if addr = 0xFF43 then
    { m with ppu := { m.ppu with fetcher := { m.ppu.fetcher with scx := val } } }
  else if addr = 0xFF44 then m
  else if addr = 0xFF45 then { m with ppu := { m.ppu with lyc := val } }
  else if addr = 0xFF4A then
    { m with ppu := { m.ppu with fetcher := { m.ppu.fetcher with wy := val } } }
  else if addr = 0xFF4B then
    { m with ppu := { m.ppu with fetcher := { m.ppu.fetcher with wx := val } } }
  else if addr = 0xFF47 then { m with ppu := { m.ppu with bgp := val } }
  else if addr = 0xFF48 then { m with ppu := { m.ppu with obp0 := val } }
  else if addr = 0xFF49 then { m with ppu := { m.ppu with obp1 := val } }
  else if addr = 0xFF68 then { m with bgpi := CgbPaletteIndex.write val }
  else if addr = 0xFF6A then { m with obpi := CgbPaletteIndex.write val }
  else if addr = 0xFF69 then
    if m.ppu.stat.ppuMode ≠ 3 then
      let m := { m with ppu := { m.ppu with
        bgPalette := fun i => if i = m.bgpi.addr then val else m.ppu.bgPalette i } }
      if m.bgpi.autoInc = 1 then
        { m with bgpi := { m.bgpi with addr := (m.bgpi.addr + 1) &&& 0x3F } }
      else m
    else m
  else if addr = 0xFF6B then
    if m.ppu.stat.ppuMode ≠ 3 then
      let m := { m with ppu := { m.ppu with
        objPalette := fun i => if i = m.obpi.addr then val else m.ppu.objPalette i } }
      if m.obpi.autoInc = 1 then
        { m with obpi := { m.obpi with addr := (m.obpi.addr + 1) &&& 0x3F } }
      else m
    else m
  else if addr = 0xFF6C then { m with opri := val &&& 1 }
  else if addr = 0xFF70 then
    if m.is2x then
      if val = 0 then { m with wramIdx := 1 }
      else { m with wramIdx := val &&& 0x7 }
    else m
  else if addr = 0xFF4F then
    if m.is2x then { m with vramIdx := val &&& 1 } else m
  else if addr = 0xFF46 then m.startDma val
  else if addr = 0xFF4D then
    { m with key1 := Key1.write ((m.key1.read &&& 0xFE) ||| (val &&& 0x1)) }
  else if addr = 0xFF56 then
    { m with rp := Rp.write ((m.rp.read &&& 0x2) ||| (val &&& 0xFD)) }
  else m

/-- `Mmu::write` (src/mem.rs lines 128-163): cart addresses go to the
cartridge; VRAM writes are dropped during Draw mode, OAM writes during
Draw and Scan; echo RAM forwards into WRAM. -/
def write (m : Mmu) (addr val : Nat) : Mmu :=
  if isCartAddr addr then { m with cart := m.cart.write addr val }
  else
    let mode := m.ppu.stat.ppuMode
    if 0x8000 ≤ addr ∧ addr ≤ 0x9FFF then
      if mode ≠ 3 then
        { m with ppu := { m.ppu with fetcher := { m.ppu.fetcher with
            vram := fun b o =>
              if b = m.vramIdx ∧ o = addr - 0x8000 then val
              else m.ppu.fetcher.vram b o } } }
      else m
    else if 0xC000 ≤ addr ∧ addr ≤ 0xCFFF then
      { m with wram := fun b o =>
          if b = 0 ∧ o = addr - 0xC000 then val else m.wram b o }
    else if 0xD000 ≤ addr ∧ addr ≤ 0xDFFF then
      { m with wram := fun b o =>
          if b = m.wramIdx ∧ o = addr - 0xD000 then val else m.wram b o }
    else if 0xE000 ≤ addr ∧ addr ≤ 0xFDFF then
      let e := ((addr - 0xE000) &&& 0x1FFF) + 0xC000
      if e ≤ 0xCFFF then
        { m with wram := fun b o =>
            if b = 0 ∧ o = e - 0xC000 then val else m.wram b o }
      else
        { m with wram := fun b o =>
            if b = m.wramIdx ∧ o = e - 0xD000 then val else m.wram b o }
    else if 0xFE00 ≤ addr ∧ addr ≤ 0xFE9F then
      if mode ≠ 3 ∧ mode ≠ 2 then
        { m with ppu := { m.ppu with
            oam := fun o => if o = addr - 0xFE00 then val else m.ppu.oam o } }
      else m
    else if 0xFEA0 ≤ addr ∧ addr ≤ 0xFEFF then m
    else if 0xFF80 ≤ addr ∧ addr ≤ 0xFFFE then
      { m with hram := fun o => if o = addr - 0xFF80 then val else m.hram o }
    else if 0xFF00 ≤ addr ∧ addr ≤ 0xFF7F then m.writeReg addr val
    else if addr = 0xFFFF then m.writeReg addr val
    else m

/-- The byte-copy loop of the OAM DMA in `Mmu::tick`: one byte per
m-cycle until 160 bytes are copied. -/
def dmaLoop : Mmu → OamDma → Nat → Mmu × OamDma
  | m, d, 0 => (m, d)
  | m, d, n + 1 =>
    if d.copied = d.count then (m, d)
    else
      let v := m.read (d.src + d.copied)
      let m := { m with ppu := { m.ppu with
        oam := fun o => if o = d.copied then v else m.ppu.oam o } }
      dmaLoop m { d with copied := d.copied + 1 } n

/-- `Mmu::tick` (src/mem.rs lines 60-94): convert m-cycles to dots
(doubled-speed mode halves the dots), tick the PPU, timer and serial and
merge their interrupt requests into IF, then advance any in-flight OAM
DMA by one byte per m-cycle. -/
def tick (m : Mmu) (mcycles : Nat) : Mmu :=
  let dots := if m.is2x then mcycles * 2 else mcycles * 4
  let pr := m.ppu.tick dots
  let m := { m with ppu := pr.1 }
  let m := m.addInterrupt pr.2
  let tr := m.timer.tick mcycles
  let m := { m with timer := tr.1 }
  let m := if tr.2 then { m with iflag := { m.iflag with timer := 1 } } else m
  let sr := m.serial.tick mcycles m.cart.isCgb
  let m := { m with serial := sr.1 }
  let m := if sr.2 then { m with iflag := { m.iflag with serial := 1 } } else m
  match m.oamDma with
  | none => m
  | some d =>
    let r := dmaLoop m d mcycles
    if r.2.copied = r.2.count then { r.1 with oamDma := none }
    else { r.1 with oamDma := some r.2 }

end Mmu

/-! ## CPU interrupt handling and step skeleton (src/cpu.rs) -/

/-- `CpuState` from src/cpu.rs. -/
inductive CpuState where
  | Running
  | Halted
  | Stopped
  deriving Repr, DecidableEq

/-- `Cpu` struct from src/cpu.rs (machine registers, IME and the delayed
EI latch; `trace_execution` is omitted as pure logging). -/
structure Cpu where
  mmu : Mmu
  state : CpuState
  frequency : Nat
  pc : Nat
  sp : Nat
  flags : Flags
  a : Nat
  b : Nat
  c : Nat
  d : Nat
  e : Nat
  h : Nat
  l : Nat
  ime : Bool
  setImeLater : Bool

namespace Cpu

/-- `Cpu::do_push` (src/cpu.rs lines 443-450): pre-decrement SP twice,
writing the high byte first at `SP-1`, then the low byte at `SP-2`
(16-bit wrapping). -/
def doPush (s : Cpu) (v : Nat) : Cpu :=
  let hb := (v / 256) % 256
  let lb := v % 256
  let sp1 := (s.sp + 0xFFFF) % 0x10000
  let m1 := s.mmu.write sp1 hb
  let sp2 := (sp1 + 0xFFFF) % 0x10000
  let m2 := m1.write sp2 lb
  { s with sp := sp2, mmu := m2 }

/-- `Cpu::handle_interrupt` (src/cpu.rs lines 126-170): wake from
Halted/Stopped, then — IME permitting — service the highest-priority
pending interrupt (VBlank > STAT > Timer > Serial > Joypad): clear its IF
bit, clear IME, push PC and jump to its vector; 5 m-cycles.  Returns the
updated CPU and `some 5` when an interrupt was dispatched.  As in the
source, the final branch clears the joypad bit (the `unreachable!` arm
cannot be hit when the interrupt bits are 0/1-valued). -/
def handleInterrupt (s : Cpu) : Cpu × Option Nat :=
  let ints := s.mmu.iflag.masked s.mmu.ienable
  let s :=
    if (s.state = CpuState.Halted ∧ ints.read ≠ 0) ∨
        (s.state = CpuState.Stopped ∧ ints.joypad = 1) then
      { s with state := CpuState.Running }
    else s
  if ¬ s.ime ∨ ints.read = 0 then (s, none)
  else
    let iflag := s.mmu.iflag
    let iv : IntrBits × Nat :=
      if ints.vblank = 1 then ({ iflag with vblank := 0 }, 0x40)
      else if ints.stat = 1 then ({ iflag with stat := 0 }, 0x48)
      else if ints.timer = 1 then ({ iflag with timer := 0 }, 0x50)
      else if ints.serial = 1 then ({ iflag with serial := 0 }, 0x58)
      else ({ iflag with joypad := 0 }, 0x60)
    let s := { s with mmu := { s.mmu with iflag := iv.1 }, ime := false }
    let s := s.doPush s.pc
    ({ s with pc := iv.2 }, some 5)

/-- `Cpu::step` (src/cpu.rs lines 102-123), parameterized by the
instruction interpreter `exec` (`Cpu::exec_next_instr`): either service
an interrupt (5 m-cycles) or run one instruction (1 m-cycle when Halted
or Stopped), then apply the delayed-EI latch and tick the MMU with the
consumed m-cycles. -/
def step (exec : Cpu → Cpu × Nat) (s : Cpu) : Cpu × Nat :=
  let oldSetIme := s.setImeLater
  let hi := handleInterrupt s
  let r : Cpu × Nat :=
    match hi.2 with
    | some cyc => (hi.1, cyc)
    | none =>
      match hi.1.state with
      | CpuState.Running => exec hi.1
      | CpuState.Halted => (hi.1, 1)
      | CpuState.Stopped => (hi.1, 1)
  let s := r.1
  let s :=
    if s.setImeLater ∧ oldSetIme = s.setImeLater then
      { s with ime := true, setImeLater := false }
    else s
  ({ s with mmu := s.mmu.tick r.2 }, r.2)

end Cpu


/-- Spec-side definition, from the words of §4.7 of the spec: an object
pixel never overwrites an already-placed object pixel; if the object
color is 0 the BG pixel wins; otherwise if the BG color is 0 the object
wins; otherwise in non-CGB mode the BG wins iff the object's
`bg_priority` attribute is 1; in CGB mode the BG wins iff
`LCDC.bg_win_priority = 1` and (`bg.bg_priority = 1` or
`obj.bg_priority = 1`); the object wins in the remaining cases. -/
def specObjMixRule (isCgb : Bool) (lcdcBgWinPriority : Nat)
    (old objPx : Pixel) (objAttrPriority : Nat) : Pixel :=
  if old.isObj then old
  else if objPx.colorId = 0 then old
  else if old.colorId = 0 then objPx
  else if ¬ isCgb then
    if objAttrPriority = 1 then old else objPx
  else if lcdcBgWinPriority = 1 ∧ (old.bgPriority = 1 ∨ objAttrPriority = 1) then
    old
  else objPx

/-- Concrete fetcher used as the C7 witness input: an object with
`bg_priority = 1` over a non-zero BG pixel in non-CGB mode. -/
def c7Fetcher : LineFetcher :=
  { LineFetcher.new with
    object := some (OamEntry.fromArray 16 8 0 0x80),
    tile := { TileLine.zero with low := 0xFF, high := 0 } }

/-- Old pixel for the C7 witness: BG color 2, not an object. -/
def c7OldPixel : Pixel :=
  { colorId := 2, palette := 0, isObj := false, bgPriority := 0 }

/-- An enabled PPU in its reset state (LCDC = 0x91), used for the
concrete line-timing conjuncts of C6. -/
def c6Ppu : Ppu :=
  { Ppu.new with fetcher := { LineFetcher.new with lcdc := LcdCtrl.write 0x91 } }

/-- The enabled PPU at the start of the VBlank period (LY = 144). -/
def c6VbPpu : Ppu :=
  { c6Ppu with ly := 144, mode := PpuMode.VBlank }

/-- `Mmu::new` plus `Mmu::default` (src/mem.rs lines 52-57 and 415-444):
all registers zeroed (`Rp::new(0b10)` for RP), `wram_idx = 1`, no OAM DMA
in flight, and the given cartridge. -/
def Mmu.new (cart : Cartidge) : Mmu :=
  { is2x := false, ppu := Ppu.new, timer := Timer.new, serial := Serial.new,
    cart := cart, key1 := Key1.write 0, iflag := IntrBits.new 0,
    ienable := IntrBits.new 0, joypad := JoyPad.write 0,
    bgpi := CgbPaletteIndex.write 0, obpi := CgbPaletteIndex.write 0,
    opri := 0, dma := 0, rp := Rp.write 2, wramIdx := 1, vramIdx := 0,
    wram := fun _ _ => 0, hram := fun _ => 0,
    dpad := { right := 0, left := 0, up := 0, down := 0 },
    buttons := { a := 0, b := 0, select := 0, start := 0 }, oamDma := none }

/-- The interrupt vector chosen by the priority chain of
`Cpu::handle_interrupt` (src/cpu.rs lines 144-161; vectors
`INT_*_VEC` from src/info.rs) for the pending set `ints`. -/
def intVector (ints : IntrBits) : Nat :=
  if ints.vblank = 1 then 0x40
  else if ints.stat = 1 then 0x48
  else if ints.timer = 1 then 0x50
  else if ints.serial = 1 then 0x58
  else 0x60

/-- IF after the priority chain of `Cpu::handle_interrupt` cleared the
bit of the serviced interrupt (same chain as `intVector`). -/
def clearServiced (iflag ints : IntrBits) : IntrBits :=
  if ints.vblank = 1 then { iflag with vblank := 0 }
  else if ints.stat = 1 then { iflag with stat := 0 }
  else if ints.timer = 1 then { iflag with timer := 0 }
  else if ints.serial = 1 then { iflag with serial := 0 }
  else { iflag with joypad := 0 }

/-- Concrete MBC1 cartridge with one 8 KiB external-RAM bank for the C1
interrupt scenario: with SP = 0xC000 the pushed return address lands in
cartridge RAM at 0xBFFE/0xBFFF. -/
def c1Cart : Cartidge := Cartidge.mbc1New 2 (fun _ => 0) 1

/-- The MMU of C1's concrete scenario: IF = IE = 0x01 (VBlank pending
and enabled), everything else at reset (PPU disabled, timer and serial
idle). -/
def c1Mmu : Mmu :=
  { Mmu.new c1Cart with iflag := IntrBits.new 1, ienable := IntrBits.new 1 }

/-- The CPU state of C1's concrete scenario: IME = 1, PC = 0x1234,
SP = 0xC000 over `c1Mmu`. -/
def c1Cpu : Cpu :=
  { mmu := c1Mmu, state := CpuState.Running, frequency := 0, pc := 0x1234,
    sp := 0xC000, flags := Flags.write 0, a := 0, b := 0, c := 0, d := 0,
    e := 0, h := 0, l := 0, ime := true, setImeLater := false }

/-- The same state with the delayed-EI latch armed (`set_ime_later`),
i.e. the interrupt arrives right after an `EI` instruction. -/
def c1LatchCpu : Cpu := { c1Cpu with setImeLater := true }

/-- A trivial instruction interpreter (1 m-cycle no-op), standing in for
`Cpu::exec_next_instr`. -/
def c1Exec : Cpu → Cpu × Nat := fun c => (c, 1)

/-- A different interpreter, used to show the dispatch path never
consults the interpreter. -/
def c1Exec2 : Cpu → Cpu × Nat := fun c => ({ c with a := 0xEE }, 7)

/-- Modelled from the spec: the per-opcode m-cycle counts of the base instruction table.  `Instr` in src/cpu/isa.rs has no cycle field in this source snapshot; the counts are the `#[N]` t-cycle annotations of INSTR_TABLE in src/cpu/table.rs divided by 4 (for branch instructions, the not-taken base value of `#[taken, base]`). -/
def instrMcycles : List Nat :=
  [1, 3, 2, 2, 1, 1, 2, 1, 5, 2, 2, 2, 1, 1, 2, 1, 1, 3, 2, 2, 1, 1, 2, 1,
    3, 2, 2, 2, 1, 1, 2, 1, 2, 3, 2, 2, 1, 1, 2, 1, 2, 2, 2, 2, 1, 1, 2, 1,
    2, 3, 2, 2, 3, 3, 3, 1, 2, 2, 2, 2, 1, 1, 2, 1, 1, 1, 1, 1, 1, 1, 2, 1,
    1, 1, 1, 1, 1, 1, 2, 1, 1, 1, 1, 1, 1, 1, 2, 1, 1, 1, 1, 1, 1, 1, 2, 1,
    1, 1, 1, 1, 1, 1, 2, 1, 1, 1, 1, 1, 1, 1, 2, 1, 2, 2, 2, 2, 2, 2, 1, 2,
    1, 1, 1, 1, 1, 1, 2, 1, 1, 1, 1, 1, 1, 1, 2, 1, 1, 1, 1, 1, 1, 1, 2, 1,
    1, 1, 1, 1, 1, 1, 2, 1, 1, 1, 1, 1, 1, 1, 2, 1, 1, 1, 1, 1, 1, 1, 2, 1,
    1, 1, 1, 1, 1, 1, 2, 1, 1, 1, 1, 1, 1, 1, 2, 1, 1, 1, 1, 1, 1, 1, 2, 1,
    2, 3, 3, 4, 3, 4, 2, 4, 2, 4, 3, 1, 3, 6, 2, 4, 2, 3, 3, 1, 3, 4, 2, 4,
    2, 4, 3, 1, 3, 1, 2, 4, 3, 3, 2, 1, 1, 4, 2, 4, 4, 1, 4, 1, 1, 1, 2, 4,
    3, 3, 2, 1, 1, 4, 2, 4, 3, 2, 4, 1, 1, 1, 2, 4]



/-- Modelled from the spec: the branch-taken m-cycle counts — the `taken` value of the `#[taken, base]` annotations of INSTR_TABLE in src/cpu/table.rs divided by 4; equal to the base count for non-branch opcodes. -/
def instrMcyclesTaken : List Nat :=
  [1, 3, 2, 2, 1, 1, 2, 1, 5, 2, 2, 2, 1, 1, 2, 1, 1, 3, 2, 2, 1, 1, 2, 1,
    3, 2, 2, 2, 1, 1, 2, 1, 3, 3, 2, 2, 1, 1, 2, 1, 3, 2, 2, 2, 1, 1, 2, 1,
    3, 3, 2, 2, 3, 3, 3, 1, 3, 2, 2, 2, 1, 1, 2, 1, 1, 1, 1, 1, 1, 1, 2, 1,
    1, 1, 1, 1, 1, 1, 2, 1, 1, 1, 1, 1, 1, 1, 2, 1, 1, 1, 1, 1, 1, 1, 2, 1,
    1, 1, 1, 1, 1, 1, 2, 1, 1, 1, 1, 1, 1, 1, 2, 1, 2, 2, 2, 2, 2, 2, 1, 2,
    1, 1, 1, 1, 1, 1, 2, 1, 1, 1, 1, 1, 1, 1, 2, 1, 1, 1, 1, 1, 1, 1, 2, 1,
    1, 1, 1, 1, 1, 1, 2, 1, 1, 1, 1, 1, 1, 1, 2, 1, 1, 1, 1, 1, 1, 1, 2, 1,
    1, 1, 1, 1, 1, 1, 2, 1, 1, 1, 1, 1, 1, 1, 2, 1, 1, 1, 1, 1, 1, 1, 2, 1,
    5, 3, 4, 4, 6, 4, 2, 4, 5, 4, 4, 1, 6, 6, 2, 4, 5, 3, 4, 1, 6, 4, 2, 4,
    5, 4, 4, 1, 6, 1, 2, 4, 3, 3, 2, 1, 1, 4, 2, 4, 4, 1, 4, 1, 1, 1, 2, 4,
    3, 3, 2, 1, 1, 4, 2, 4, 3, 2, 4, 1, 1, 1, 2, 4]



/-- Modelled from the spec: the per-opcode m-cycle counts of the 0xCB-prefixed table, from the `#[N]` annotations of PREF_INSTR_TABLE in src/cpu/table.rs divided by 4. -/
def prefInstrMcycles : List Nat :=
  [2, 2, 2, 2, 2, 2, 4, 2, 2, 2, 2, 2, 2, 2, 4, 2, 2, 2, 2, 2, 2, 2, 4, 2,
    2, 2, 2, 2, 2, 2, 4, 2, 2, 2, 2, 2, 2, 2, 4, 2, 2, 2, 2, 2, 2, 2, 4, 2,
    2, 2, 2, 2, 2, 2, 4, 2, 2, 2, 2, 2, 2, 2, 4, 2, 2, 2, 2, 2, 2, 2, 3, 2,
    2, 2, 2, 2, 2, 2, 3, 2, 2, 2, 2, 2, 2, 2, 3, 2, 2, 2, 2, 2, 2, 2, 3, 2,
    2, 2, 2, 2, 2, 2, 3, 2, 2, 2, 2, 2, 2, 2, 3, 2, 2, 2, 2, 2, 2, 2, 3, 2,
    2, 2, 2, 2, 2, 2, 3, 2, 2, 2, 2, 2, 2, 2, 4, 2, 2, 2, 2, 2, 2, 2, 4, 2,
    2, 2, 2, 2, 2, 2, 4, 2, 2, 2, 2, 2, 2, 2, 4, 2, 2, 2, 2, 2, 2, 2, 4, 2,
    2, 2, 2, 2, 2, 2, 4, 2, 2, 2, 2, 2, 2, 2, 4, 2, 2, 2, 2, 2, 2, 2, 4, 2,
    2, 2, 2, 2, 2, 2, 4, 2, 2, 2, 2, 2, 2, 2, 4, 2, 2, 2, 2, 2, 2, 2, 4, 2,
    2, 2, 2, 2, 2, 2, 4, 2, 2, 2, 2, 2, 2, 2, 4, 2, 2, 2, 2, 2, 2, 2, 4, 2,
    2, 2, 2, 2, 2, 2, 4, 2, 2, 2, 2, 2, 2, 2, 4, 2]


/-! ## Theorems: C4 (Counter contract) -/

/-- One tick of a counter whose `ticks` field is in phase with a total of
`S` already-elapsed units (`ticks = period - S % period`, so
`1 ≤ ticks ≤ period`). -/
theorem Counter.tick_shift (p S e : Nat) (hp : 0 < p) :
    Counter.tick { period := p, ticks := p - S % p } e =
      ({ period := p, ticks := p - (S + e) % p }, (S + e) / p - S / p) := by
  have hm : S % p < p := Nat.mod_lt _ hp
  have hdm : p * (S / p) + S % p = S := Nat.div_add_mod S p
  unfold Counter.tick
  dsimp only
  rw [if_neg (Nat.ne_of_gt hp)]
  split
  · rename_i hlt
    have hkey : S + e = p * (S / p) + (S % p + e) := by omega
    have h0 : (S % p + e) / p = 0 := Nat.div_eq_of_lt (by omega)
    have hmod : (S + e) % p = S % p + e := by
      rw [hkey, Nat.mul_add_mod, Nat.mod_eq_of_lt (by omega)]
    have hdiv : (S + e) / p = S / p := by
      rw [hkey, Nat.mul_add_div hp, h0, Nat.add_zero]
    rw [hmod, hdiv, Nat.sub_self, Nat.sub_sub]
  · rename_i hge
    have hx : p * (S / p + 1) = p * (S / p) + p := by ring
    have hkey : S + e = p * (S / p + 1) + (e - (p - S % p)) := by omega
    have hmod : (S + e) % p = (e - (p - S % p)) % p := by
      rw [hkey, Nat.mul_add_mod]
    have hdiv : (S + e) / p = S / p + 1 + (e - (p - S % p)) / p := by
      rw [hkey, Nat.mul_add_div hp]
    rw [hmod, hdiv]
    congr 1
    set u := S / p with hu
    set v := (e - (p - S % p)) / p with hv
    clear_value u v
    omega

/-- `tickAll` on a counter in phase with `S` already-elapsed units. -/
theorem Counter.tickAll_shift (es : List Nat) (p S : Nat) (hp : 0 < p) :
    Counter.tickAll { period := p, ticks := p - S % p } es =
      ({ period := p, ticks := p - (S + es.sum) % p },
        (S + es.sum) / p - S / p) := by
  induction es generalizing S with
  | nil => simp [Counter.tickAll]
  | cons e es ih =>
    have h1 : S / p ≤ (S + e) / p := Nat.div_le_div_right (by omega)
    have h2 : (S + e) / p ≤ (S + (e + es.sum)) / p :=
      Nat.div_le_div_right (by omega)
    have hassoc : S + e + es.sum = S + (e + es.sum) := by ring
    simp only [Counter.tickAll, Counter.tick_shift p S e hp, ih (S + e),
      List.sum_cons, hassoc]
    congr 1
    set u := S / p with hu
    set v := (S + e) / p with hv
    set w := (S + (e + es.sum)) / p with hw
    clear_value u v w
    omega

/-- C4 counterexample: on a freshly constructed counter the very first
tick already fires once more than `floor(sum/period)`: with period 2 a
single `tick 1` returns 1, while the claim's contract
`sum(tick(e_i)) == floor(sum(e_i)/p)` demands 0. -/
theorem c4_counterexample :
    (Counter.tickAll (Counter.new 2) [1]).2 ≠ (List.sum [1]) / 2 := by decide

/-- C4 (amended): a counter with period 0 never fires, and for period
`p > 0` a freshly constructed counter fires once immediately on the first
tick, so over any non-empty sequence the overflow counts sum to
`floor(sum(e_i)/p) + 1` (one more than the claimed contract). -/
theorem c4_counter_contract_amended :
    (∀ es : List Nat, (Counter.tickAll (Counter.new 0) es).2 = 0) ∧
    (∀ (p e : Nat) (es : List Nat), 0 < p →
      (Counter.tickAll (Counter.new p) (e :: es)).2 = (e + es.sum) / p + 1) := by
  constructor
  · intro es
    induction es with
    | nil => rfl
    | cons e es ih =>
      rw [Counter.tickAll]
      have h : Counter.tick (Counter.new 0) e = (Counter.new 0, 0) := by
        simp [Counter.tick, Counter.new]
      rw [h]
      simpa using ih
  · intro p e es hp
    rw [Counter.tickAll]
    have hfirst : Counter.tick (Counter.new p) e =
        ({ period := p, ticks := p - e % p }, e / p + 1) := by
      unfold Counter.tick Counter.new
      simp [Nat.ne_of_gt hp]
    rw [hfirst]
    rw [Counter.tickAll_shift es p e hp]
    have h1 : e / p ≤ (e + es.sum) / p := Nat.div_le_div_right (by omega)
    set u := e / p with hu
    set v := (e + es.sum) / p with hv
    clear_value u v
    omega

/-- Witness for `c4_counter_contract_amended` at `p = 5`,
`es = [3, 4, 9, 0, 14]` (sum 30, overflow total `30/5 + 1 = 7`). -/
theorem c4_counter_contract_amended_witness :
    0 < 5 ∧
      (Counter.tickAll (Counter.new 5) (3 :: [4, 9, 0, 14])).2 =
        (3 + [4, 9, 0, 14].sum) / 5 + 1 :=
  ⟨by decide, c4_counter_contract_amended.2 5 3 [4, 9, 0, 14] (by decide)⟩

/-! ## Theorems: C2 (LD HL, SP+e8) -/

/-- `is_carry` detects exactly the unsigned carry out of the low `bits`
bits: it is 1 iff `a % 2^bits + b % 2^bits ≥ 2^bits`. -/
theorem isCarry_eq_carryOut (a b bits : Nat) (hb : bits < 16) :
    isCarry a b bits = if 2 ^ bits ≤ a % 2 ^ bits + b % 2 ^ bits then 1 else 0 := by
  have hmask : (1 <<< bits) - 1 = 2 ^ bits - 1 := by
    rw [Nat.shiftLeft_eq, one_mul]
  simp only [isCarry, maskU16, if_neg (Nat.ne_of_lt hb), hmask,
    Nat.and_pow_two_sub_one_eq_mod]
  have hpow : 0 < 2 ^ bits := Nat.two_pow_pos bits
  have ha : a % 2 ^ bits < 2 ^ bits := Nat.mod_lt _ hpow
  have hbb : b % 2 ^ bits < 2 ^ bits := Nat.mod_lt _ hpow
  rcases Nat.lt_or_ge (a % 2 ^ bits + b % 2 ^ bits) (2 ^ bits) with h | h
  · rw [Nat.mod_eq_of_lt h, if_neg (by omega), if_neg (by omega)]
  · have hsub : (a % 2 ^ bits + b % 2 ^ bits) % 2 ^ bits
        = a % 2 ^ bits + b % 2 ^ bits - 2 ^ bits := by
      rw [Nat.mod_eq_sub_mod h, Nat.mod_eq_of_lt (by omega)]
    rw [hsub, if_pos (by omega), if_pos (by omega)]

/-- C2 counterexample: the claim's concrete instance is wrong about the
flags.  For `SP = 0x0FF8`, `e8 = 0x10` the code yields `H = 0`, `C = 1`
(low nibbles `8 + 0` do not carry; low bytes `0xF8 + 0x10` do), not
`H = 1`, `C = 0` as claimed. -/
theorem c2_counterexample :
    ¬ ((ldHlSpE8 0x0FF8 0x10).2.h = 1 ∧ (ldHlSpE8 0x0FF8 0x10).2.c = 0 ∧
       (ldHlSpE8 0x0FF8 0x10).1 = 0x1008) := by decide

/-- C2 (amended): `LD HL, SP+e8` loads `HL = SP + e8` (signed addend,
wrapping 16-bit arithmetic) with `Z = 0`, `N = 0`, `H` the unsigned carry
out of bit 4 and `C` the unsigned carry out of bit 8 of `SP + e8` treated
as unsigned; the concrete instance `SP = 0x0FF8`, `e8 = 0x10` yields
`HL = 0x1008` with `Z = 0`, `N = 0`, `H = 0`, `C = 1`. -/
theorem c2_ld_hl_sp_e8_amended (sp e8 : Nat) (hsp : sp < 65536) (he : e8 < 256) :
    ((ldHlSpE8 sp e8).1 : Int) = ((sp : Int) + specSigned e8) % 65536 ∧
    (ldHlSpE8 sp e8).2.z = 0 ∧ (ldHlSpE8 sp e8).2.n = 0 ∧
    (ldHlSpE8 sp e8).2.h = (if 16 ≤ sp % 16 + e8 % 16 then 1 else 0) ∧
    (ldHlSpE8 sp e8).2.c = (if 256 ≤ sp % 256 + e8 % 256 then 1 else 0) := by
  have h4 := isCarry_eq_carryOut sp (i8ToU16 e8) 4 (by omega)
  have h8 := isCarry_eq_carryOut sp (i8ToU16 e8) 8 (by omega)
  have hv4 : i8ToU16 e8 % 16 = e8 % 16 := by
    unfold i8ToU16; split <;> omega
  have hv8 : i8ToU16 e8 % 256 = e8 % 256 := by
    unfold i8ToU16; split <;> omega
  have hp4 : (2 : Nat) ^ 4 = 16 := by norm_num
  have hp8 : (2 : Nat) ^ 8 = 256 := by norm_num
  refine ⟨?_, rfl, rfl, ?_, ?_⟩
  · unfold ldHlSpE8 i8ToU16 specSigned
    split <;> push_cast <;> omega
  · show isCarry sp (i8ToU16 e8) 4 = _
    rw [h4, hp4, hv4]
  · show isCarry sp (i8ToU16 e8) 8 = _
    rw [h8, hp8, hv8]

/-- Witness for `c2_ld_hl_sp_e8_amended` at the claim's own instance
`SP = 0x0FF8`, `e8 = 0x10`. -/
theorem c2_ld_hl_sp_e8_amended_witness :
    (0x0FF8 < 65536 ∧ 0x10 < 256) ∧
    (((ldHlSpE8 0x0FF8 0x10).1 : Int) =
        ((0x0FF8 : Int) + specSigned 0x10) % 65536 ∧
      (ldHlSpE8 0x0FF8 0x10).2.z = 0 ∧ (ldHlSpE8 0x0FF8 0x10).2.n = 0 ∧
      (ldHlSpE8 0x0FF8 0x10).2.h =
        (if 16 ≤ 0x0FF8 % 16 + 0x10 % 16 then 1 else 0) ∧
      (ldHlSpE8 0x0FF8 0x10).2.c =
        (if 256 ≤ 0x0FF8 % 256 + 0x10 % 256 then 1 else 0)) :=
  ⟨⟨by decide, by decide⟩, c2_ld_hl_sp_e8_amended 0x0FF8 0x10 (by decide) (by decide)⟩


/-! ## Theorems: C3 (DIV reset tick) -/

theorem Timer.processClockTick_zero (u : Timer)
    (h0 : u.sysClock = 0) (hov : u.timaOverflowed = false) (ha : u.apuTicks = 0) :
    Timer.processClockTick u =
      ({ u with
          apuTicks := (u.oldSysClock >>> (if u.is2x then 11 else 10)) &&& 1,
          tima :=
            if u.tac.enable ≠ 0 ∧
                (u.oldSysClock >>> Timer.timaClockBit u.tac.clockSelect) &&& 1 = 1
            then (if u.tima = 0xFF then 0 else u.tima + 1) else u.tima,
          timaOverflowed :=
            decide (u.tac.enable ≠ 0 ∧
              (u.oldSysClock >>> Timer.timaClockBit u.tac.clockSelect) &&& 1 = 1 ∧
              u.tima = 0xFF) },
        false) := by
  have hone : ∀ x : Nat, x &&& 1 = 0 ∨ x &&& 1 = 1 := by
    intro x
    rw [Nat.and_one_is_mod]
    omega
  simp only [Timer.processClockTick, Timer.hasDivBitFallen, h0, hov,
    Nat.zero_shiftRight, Nat.zero_and, ha]
  by_cases he : u.tac.enable = 0
  · rcases hone (u.oldSysClock >>> (if u.is2x then 11 else 10)) with hb | hb <;>
      simp [he, hb]
  · by_cases hf : (u.oldSysClock >>> Timer.timaClockBit u.tac.clockSelect) &&& 1 = 1
    · by_cases ht : u.tima = 0xFF <;>
        rcases hone (u.oldSysClock >>> (if u.is2x then 11 else 10)) with hb | hb <;>
          simp [he, hf, ht, hb]
    · rcases hone (u.oldSysClock >>> (if u.is2x then 11 else 10)) with hb | hb <;>
        rcases hone (u.oldSysClock >>> Timer.timaClockBit u.tac.clockSelect) with hg | hg <;>
          simp_all

/-- C3: writing any value to DIV resets the 14-bit sys-clock to 0 (the
value written is ignored by `Timer::reset_div`), so DIV reads 0; the next
timer tick processes the `old_sys_clock -> 0` transition as one clock
tick: the DIV-APU tick count is exactly the old value of bit 10 of the
sys-clock (bit 11 at double speed), hence at most one DIV-APU tick, and
TIMA is incremented at most once — exactly when `TAC.enable` is set and
the selected TIMA clock bit was set in the old sys-clock value, i.e. fell
on the reset transition (with TIMA wrapping to 0 and the overflow marked
when it was 0xFF). -/
theorem c3_div_reset_tick (t : Timer) (hsettle : t.oldSysClock = t.sysClock)
    (hov : t.timaOverflowed = false) :
    Timer.getDiv (Timer.resetDiv t) = 0 ∧
    (Timer.tick (Timer.resetDiv t) 1).1.sysClock = 0 ∧
    (Timer.tick (Timer.resetDiv t) 1).1.apuTicks =
      (t.sysClock >>> (if t.is2x then 11 else 10)) &&& 1 ∧
    (Timer.tick (Timer.resetDiv t) 1).1.apuTicks ≤ 1 ∧
    (Timer.tick (Timer.resetDiv t) 1).2 = false ∧
    (t.tac.enable ≠ 0 →
      (t.sysClock >>> Timer.timaClockBit t.tac.clockSelect) &&& 1 = 1 →
      (Timer.tick (Timer.resetDiv t) 1).1.tima =
        (if t.tima = 0xFF then 0 else t.tima + 1)) ∧
    ((t.tac.enable = 0 ∨
        (t.sysClock >>> Timer.timaClockBit t.tac.clockSelect) &&& 1 = 0) →
      (Timer.tick (Timer.resetDiv t) 1).1.tima = t.tima) := by
  have hmain := Timer.processClockTick_zero
    { t with sysClock := 0, wasDivReset := true, apuTicks := 0 }
    rfl (by simpa using hov) rfl
  have htick : Timer.tick (Timer.resetDiv t) 1 =
      ({ (Timer.processClockTick
            { t with sysClock := 0, wasDivReset := true, apuTicks := 0 }).1 with
          oldSysClock := (Timer.processClockTick
            { t with sysClock := 0, wasDivReset := true, apuTicks := 0 }).1.sysClock,
          wasDivReset := false },
        (Timer.processClockTick
          { t with sysClock := 0, wasDivReset := true, apuTicks := 0 }).2) := by
    simp [Timer.tick, Timer.resetDiv, Timer.tickLoop]
  rw [htick, hmain]
  dsimp only
  rw [hsettle]
  refine ⟨?_, rfl, rfl, ?_, rfl, ?_, ?_⟩
  · simp [Timer.getDiv, Timer.resetDiv]
  · rw [Nat.and_one_is_mod]
    omega
  · intro h1 h2
    rw [if_pos ⟨h1, h2⟩]
  · intro h
    rw [if_neg]
    rintro ⟨h1, h2⟩
    rcases h with h | h
    · exact h1 h
    · omega

/-- Witness for `c3_div_reset_tick` at a timer with sys-clock 0x3FFF (all
bits set), `TAC.enable = 1`, `clock_select = 0` (bit 7): the reset
transition yields one DIV-APU tick and one TIMA increment. -/
theorem c3_div_reset_tick_witness :
    (c3TimerStart.oldSysClock = c3TimerStart.sysClock ∧
      c3TimerStart.timaOverflowed = false) ∧
    (Timer.getDiv (Timer.resetDiv c3TimerStart) = 0 ∧
      (Timer.tick (Timer.resetDiv c3TimerStart) 1).1.sysClock = 0 ∧
      (Timer.tick (Timer.resetDiv c3TimerStart) 1).1.apuTicks =
        (c3TimerStart.sysClock >>> (if c3TimerStart.is2x then 11 else 10)) &&& 1 ∧
      (Timer.tick (Timer.resetDiv c3TimerStart) 1).1.apuTicks ≤ 1 ∧
      (Timer.tick (Timer.resetDiv c3TimerStart) 1).2 = false ∧
      (c3TimerStart.tac.enable ≠ 0 →
        (c3TimerStart.sysClock >>>
          Timer.timaClockBit c3TimerStart.tac.clockSelect) &&& 1 = 1 →
        (Timer.tick (Timer.resetDiv c3TimerStart) 1).1.tima =
          (if c3TimerStart.tima = 0xFF then 0 else c3TimerStart.tima + 1)) ∧
      ((c3TimerStart.tac.enable = 0 ∨
          (c3TimerStart.sysClock >>>
            Timer.timaClockBit c3TimerStart.tac.clockSelect) &&& 1 = 0) →
        (Timer.tick (Timer.resetDiv c3TimerStart) 1).1.tima = c3TimerStart.tima)) :=
  ⟨⟨rfl, rfl⟩, c3_div_reset_tick c3TimerStart rfl rfl⟩


/-! ## Theorems: C8 (Serial transfer completion) -/

set_option maxRecDepth 4000 in
/-- C8 counterexample: ticking 8 m-cycles at a time from `c8SerialStart`
(tx_enable = 1, internal clock, normal speed, period 128 m-cycles), no
serial interrupt has fired after `8 x 128 = 1024` m-cycles of ticking
(128 calls) — the first tick call only starts the transfer and its
m-cycles are discarded — and SB is never set to 0xFF: when the transfer
does complete, SB is 0x00 (the outgoing bits are shifted out and zeros
shift in). -/
theorem c8_counterexample :
    (Serial.runFires c8SerialStart false 8 128).2 = false ∧
    (Serial.runFires c8SerialStart false 8 129).1.sb ≠ 0xFF := by decide

set_option maxRecDepth 4000 in
/-- C8 (amended): from `c8SerialStart` the first tick call latches the
period 128 m-cycles (internal clock, non-CGB cartridge) and starts the
transfer without counting its own m-cycles; the serial interrupt fires on
the call that completes `8 x 128 = 1024` m-cycles after that starting
call (here the 129th call of 8 m-cycles each), at which point
`SC.tx_enable` is cleared and SB holds 0x00, not 0xFF. -/
theorem c8_serial_transfer_amended :
    (Serial.runFires c8SerialStart false 8 1).1.period = 128 ∧
    (Serial.runFires c8SerialStart false 8 1).1.transferring = true ∧
    (Serial.runFires c8SerialStart false 8 128).2 = false ∧
    (Serial.runFires c8SerialStart false 8 129).2 = true ∧
    (Serial.runFires c8SerialStart false 8 129).1.sb = 0 ∧
    (Serial.runFires c8SerialStart false 8 129).1.sc.txEnable = 0 ∧
    (Serial.runFires c8SerialStart false 8 129).1.transferring = false := by
  decide


/-! ## Theorems: C5 (MBC1 bank offsets) -/

/-- Bit-packing arithmetic for the MBC1 ROM1 offset: for a 5-bit low bank
and 2-bit high bank, `lo << 14 | hi << 19 = (lo | hi << 5) * 16384`. -/
theorem mbc1_or_shift : ∀ x < 32, ∀ y < 4,
    (x <<< 14 ||| y <<< 19) = (x ||| y <<< 5) * 16384 := by decide

/-- For a 2-bit high bank, `hi << 19 = (hi << 5) * 16384`. -/
theorem mbc1_hi_shift : ∀ y < 4, y <<< 19 = (y <<< 5) * 16384 := by decide

/-- For a 2-bit high bank, `hi << 13 = hi * 8192`. -/
theorem mbc1_ram_shift : ∀ y < 4, y <<< 13 = y * 8192 := by decide

/-- The zero-bank fix plus offset recomputation at the end of
`Cartidge::write_mbc1` establishes `mbc1OffsetsOk` whenever the bank
registers are in range. -/
theorem mbc1_fix_recompute (c1 : Cartidge)
    (h1 : c1.bankLo ≤ 31) (h2 : c1.bankHi ≤ 3) :
    mbc1OffsetsOk
      (let c2 := if c1.bankLo = 0 then { c1 with bankLo := 1 } else c1
       { c2 with
          ramOff := (if c2.bankMode then c2.bankHi else 0) <<< 13,
          rom0Off := (if c2.bankMode then c2.bankHi else 0) <<< 19,
          rom1Off := c2.bankLo <<< 14 ||| c2.bankHi <<< 19 }) := by
  dsimp only
  by_cases h0 : c1.bankLo = 0
  · rw [if_pos h0]
    unfold mbc1OffsetsOk
    dsimp only
    refine ⟨by omega, by omega, h2,
      mbc1_or_shift 1 (by omega) c1.bankHi (by omega), ?_, ?_⟩
    · by_cases hm : c1.bankMode
      · simp only [hm, ite_true]
        exact mbc1_hi_shift c1.bankHi (by omega)
      · simp [hm]
    · by_cases hm : c1.bankMode
      · simp only [hm, ite_true]
        exact mbc1_ram_shift c1.bankHi (by omega)
      · simp [hm]
  · rw [if_neg h0]
    unfold mbc1OffsetsOk
    dsimp only
    refine ⟨by omega, h1, h2,
      mbc1_or_shift c1.bankLo (by omega) c1.bankHi (by omega), ?_, ?_⟩
    · by_cases hm : c1.bankMode
      · simp only [hm, ite_true]
        exact mbc1_hi_shift c1.bankHi (by omega)
      · simp [hm]
    · by_cases hm : c1.bankMode
      · simp only [hm, ite_true]
        exact mbc1_ram_shift c1.bankHi (by omega)
      · simp [hm]

/-- `Cartidge::write_mbc1` always leaves the offsets in the amended
relation, because it recomputes them from the (masked) registers. -/
theorem writeMbc1_offsets (c : Cartidge) (addr val : Nat)
    (hlo : c.bankLo ≤ 31) (hhi : c.bankHi ≤ 3) :
    mbc1OffsetsOk (c.writeMbc1 addr val) := by
  have hand5 : val &&& maskUsize 5 ≤ 31 := Nat.and_le_right
  have hand2 : val &&& maskUsize 2 ≤ 3 := Nat.and_le_right
  unfold Cartidge.writeMbc1
  refine mbc1_fix_recompute _ ?_ ?_
  · split
    · exact hlo
    · split
      · exact hand5
      · split
        · exact hlo
        · split
          · exact hlo
          · exact hlo
  · split
    · exact hhi
    · split
      · exact hhi
      · split
        · exact hand2
        · split
          · exact hhi
          · exact hhi

/-- A cartridge write never breaks `mbc1OffsetsOk`: external-RAM writes
leave the registers and offsets alone, MBC1 control writes recompute
them, and all other kinds leave the cartridge unchanged. -/
theorem write_offsets (c : Cartidge) (addr val : Nat)
    (h : mbc1OffsetsOk c) : mbc1OffsetsOk (c.write addr val) := by
  unfold Cartidge.write
  split
  · unfold Cartidge.writeRam
    split
    · exact h
    · exact h
  · match c.kind with
    | MbcType.None => exact h
    | MbcType.Mbc1 => exact writeMbc1_offsets c addr val h.2.1 h.2.2.1
    | MbcType.Mbc2 => exact h
    | MbcType.Mbc3 => exact h
    | MbcType.Mbc5 => exact h
    | MbcType.Mbc6 => exact h
    | MbcType.Mbc7 => exact h
    | MbcType.Mmm01 => exact h
    | MbcType.HuC1 => exact h
    | MbcType.HuC3 => exact h

/-- `mbc1OffsetsOk` holds after any sequence of writes. -/
theorem applyWrites_offsets (ws : List (Nat × Nat)) (c : Cartidge)
    (h : mbc1OffsetsOk c) : mbc1OffsetsOk (Cartidge.applyWrites c ws) := by
  induction ws generalizing c with
  | nil => exact h
  | cons w ws ih => exact ih _ (write_offsets c w.1 w.2 h)

/-- C5 counterexample: on a 2-bank (32 KiB) MBC1 cartridge, writing ROM
bank 2 gives a 0x4000-0x7FFF read offset of `2 * 16 KiB = 0x8000`, not
`((2 % bank_count) * 16 KiB) = 0` as the claim's `% bank_count` demands;
the out-of-range read returns 0xFF instead of wrapping to bank 0 (whose
first byte is 0, not 0xFF). -/
theorem c5_counterexample :
    c5Cart.rom1Off ≠
      ((c5Cart.bankLo ||| c5Cart.bankHi <<< 5) % (c5Cart.romLen / 16384)) *
        16384 ∧
    c5Cart.read 0x4000 = 0xFF ∧ c5Cart.rom 0 ≠ 0xFF := by decide

/-- C5 (amended): for every MBC1 register state reachable by writes from
a fresh cartridge, the 0x4000-0x7FFF byte offset equals
`(bank_lo | bank_hi << 5) * 16 KiB` with no reduction modulo the bank
count (reads past the ROM end return 0xFF), the 0x0000-0x3FFF offset is 0
in mode 0 and `(bank_hi << 5) * 16 KiB` in mode 1, and the external-RAM
offset selects bank 0 in mode 0 and bank `bank_hi` in mode 1; a zero
5-bit `bank_lo` value is treated as 1 (`1 ≤ bank_lo ≤ 31`). -/
theorem c5_mbc1_offsets_amended (romBanks ramBanks : Nat) (rom : Nat → Nat)
    (ws : List (Nat × Nat)) :
    mbc1OffsetsOk
      (Cartidge.applyWrites (Cartidge.mbc1New romBanks rom ramBanks) ws) := by
  apply applyWrites_offsets
  unfold mbc1OffsetsOk Cartidge.mbc1New
  dsimp only
  refine ⟨by omega, by omega, by omega, by decide, by decide, by decide⟩


/-! ## Theorems: C7 (object-over-background mixing rule) -/

/-- C7: for every combination of BG/object color, priority bits and CGB
flag (all priority bits being 0/1-valued), `LineFetcher::mix_obj_pixel`
computes exactly the documented rule table: object color 0 keeps the BG
pixel, an object pixel never overwrites an object pixel, BG color 0
yields the object pixel, otherwise non-CGB mode is decided by the
object's `bg_priority` attribute alone and CGB mode by
`LCDC.bg_win_priority` together with both `bg_priority` bits. -/
theorem c7_obj_mix_rule (f : LineFetcher) (isCgb : Bool) (old : Pixel)
    (idx : Nat) (obj : OamEntry) (hobj : f.object = some obj)
    (hbg : old.bgPriority ≤ 1) (hop : obj.attrs.bgPriority ≤ 1)
    (hl : f.lcdc.bgWinPriotity ≤ 1) :
    f.mixObjPixel isCgb old idx =
      specObjMixRule isCgb f.lcdc.bgWinPriotity old
        { palette := f.tile.palette,
          colorId := tileColorId f.tile.low f.tile.high idx,
          bgPriority := 0, isObj := true }
        obj.attrs.bgPriority := by
  unfold LineFetcher.mixObjPixel specObjMixRule isObjPriority
  rw [hobj]
  dsimp only
  rcases Nat.le_one_iff_eq_zero_or_eq_one.mp hbg with hb | hb <;>
    rcases Nat.le_one_iff_eq_zero_or_eq_one.mp hop with ho | ho <;>
    rcases Nat.le_one_iff_eq_zero_or_eq_one.mp hl with hc | hc <;>
    by_cases hio : old.isObj <;>
    by_cases hc0 : old.colorId = 0 <;>
    by_cases hpx : tileColorId f.tile.low f.tile.high idx = 0 <;>
    cases isCgb <;>
    simp [hb, ho, hc, hio, hc0, hpx]

/-- C7 witness: the mixing theorem instantiated at a concrete fetcher,
object and old pixel. -/
theorem c7_obj_mix_rule_witness :
    c7Fetcher.object = some (OamEntry.fromArray 16 8 0 0x80) ∧
    c7OldPixel.bgPriority ≤ 1 ∧
    (OamEntry.fromArray 16 8 0 0x80).attrs.bgPriority ≤ 1 ∧
    c7Fetcher.lcdc.bgWinPriotity ≤ 1 ∧
    c7Fetcher.mixObjPixel false c7OldPixel 3 =
      specObjMixRule false c7Fetcher.lcdc.bgWinPriotity c7OldPixel
        { palette := c7Fetcher.tile.palette,
          colorId := tileColorId c7Fetcher.tile.low c7Fetcher.tile.high 3,
          bgPriority := 0, isObj := true }
        (OamEntry.fromArray 16 8 0 0x80).attrs.bgPriority :=
  ⟨rfl, by decide, by decide, by decide,
    c7_obj_mix_rule c7Fetcher false c7OldPixel 3 (OamEntry.fromArray 16 8 0 0x80)
      rfl (by decide) (by decide) (by decide)⟩

/-! ## Theorems: C6 (PPU line/frame timing) -/

set_option maxRecDepth 4000 in
/-- C6: PPU line and frame timing.  (1) `eat_dots` never changes LY
while the line's dot counter stays below 456, and accounts every dot.
(2) When the 456th dot of a line is consumed, `eat_dots` takes exactly
`456 - dots_in_line` dots from the budget, resets the counter and
increments LY.  (3) At a line end, HBlank hands over to VBlank exactly
when the new LY is 144, and to Scan otherwise.  (4) Before the line end,
HBlank stays in HBlank with LY unchanged.  (5) A VBlank line end wraps
LY to 0 and re-enters Scan exactly when the new LY would be 154, and
stays in VBlank with LY incremented otherwise.  (6) The constants give
456 dots per line, 154 lines and 456 * 154 = 70224 dots per frame.
(7) Concretely, the enabled PPU finishes its first line after exactly
456 dots (LY = 1, back in Scan) and not after 455, and the 10 VBlank
lines take exactly 4560 dots, wrapping LY to 0 in Scan mode, with LY
still 153 one dot earlier. -/
theorem c6_ppu_frame_timing :
    (∀ (p : Ppu) (dots : Nat), p.dotsInLine + dots < ppuHscanDots →
      (p.eatDots dots).1.ly = p.ly ∧
      (p.eatDots dots).1.dotsInLine = p.dotsInLine + dots ∧
      (p.eatDots dots).1.dotsLeft = p.dotsLeft - dots ∧
      (p.eatDots dots).2 = false) ∧
    (∀ (p : Ppu) (dots : Nat), ppuHscanDots ≤ p.dotsInLine + dots →
      p.dotsInLine ≤ ppuHscanDots →
      (p.eatDots dots).1.ly = p.ly + 1 ∧
      (p.eatDots dots).1.dotsInLine = 0 ∧
      (p.eatDots dots).1.dotsLeft =
        p.dotsLeft - (ppuHscanDots - p.dotsInLine) ∧
      (p.eatDots dots).2 = true) ∧
    (∀ p : Ppu, ppuHscanDots ≤ p.dotsInLine + p.dotsLeft →
      p.stepHblank.1.ly = p.ly + 1 ∧ p.stepHblank.1.dotsInLine = 0 ∧
      p.stepHblank.2 =
        (if p.ly + 1 = ppuDrawLines then PpuMode.VBlank else PpuMode.Scan)) ∧
    (∀ p : Ppu, p.dotsInLine + p.dotsLeft < ppuHscanDots →
      p.stepHblank.1.ly = p.ly ∧ p.stepHblank.2 = PpuMode.HBlank) ∧
    (∀ p : Ppu, ppuHscanDots ≤ p.dotsInLine + p.dotsLeft →
      (p.ly + 1 = ppuDrawLines + ppuVblankLines →
        p.stepVblank.1.ly = 0 ∧ p.stepVblank.1.dotsInLine = 0 ∧
        p.stepVblank.2 = PpuMode.Scan) ∧
      (p.ly + 1 ≠ ppuDrawLines + ppuVblankLines →
        p.stepVblank.1.ly = p.ly + 1 ∧ p.stepVblank.2 = PpuMode.VBlank)) ∧
    (ppuHscanDots = 456 ∧ ppuDrawLines + ppuVblankLines = 154 ∧
      ppuHscanDots * (ppuDrawLines + ppuVblankLines) = 70224) ∧
    ((c6Ppu.tick 456).1.ly = 1 ∧ (c6Ppu.tick 456).1.mode = PpuMode.Scan ∧
      (c6Ppu.tick 456).1.dotsInLine = 0 ∧ (c6Ppu.tick 455).1.ly = 0) ∧
    ((c6VbPpu.tick 4560).1.ly = 0 ∧
      (c6VbPpu.tick 4560).1.mode = PpuMode.Scan ∧
      (c6VbPpu.tick 4559).1.ly = 153 ∧
      (c6VbPpu.tick 4559).1.mode = PpuMode.VBlank) := by
  refine ⟨?_, ?_, ?_, ?_, ?_, by decide, by decide, by decide⟩
  · intro p dots h
    have h' : ¬ ppuHscanDots ≤ p.dotsInLine + dots := by omega
    simp [Ppu.eatDots, h']
  · intro p dots h h2
    simp only [Ppu.eatDots, if_pos h]
    refine ⟨trivial, trivial, ?_, trivial⟩
    simp only [ppuHscanDots] at *
    omega
  · intro p h
    simp only [Ppu.stepHblank, Ppu.eatDots, if_pos h]
    by_cases hly : p.ly + 1 = ppuDrawLines
    · simp [hly, ppuDrawLines]
    · simp only [ppuDrawLines] at hly
      simp [hly, ppuDrawLines]
  · intro p h
    have h' : ¬ ppuHscanDots ≤ p.dotsInLine + p.dotsLeft := by omega
    simp [Ppu.stepHblank, Ppu.eatDots, h']
  · intro p h
    constructor
    · intro hly
      simp only [ppuDrawLines, ppuVblankLines] at hly
      simp [Ppu.stepVblank, Ppu.eatDots, if_pos h, hly, ppuDrawLines,
        ppuVblankLines]
    · intro hly
      simp only [ppuDrawLines, ppuVblankLines] at hly
      simp [Ppu.stepVblank, Ppu.eatDots, if_pos h, hly, ppuDrawLines,
        ppuVblankLines]

/-- C6 witness: the timing conjuncts instantiated at concrete PPU
states — a fresh frame consuming 5 dots, a full 456-dot line, an HBlank
hand-over at LY 0 with a 456-dot budget, an HBlank with an empty budget,
and the last VBlank line (LY 153). -/
theorem c6_ppu_frame_timing_witness :
    ((Ppu.new.eatDots 5).1.ly = Ppu.new.ly ∧
      (Ppu.new.eatDots 5).1.dotsInLine = Ppu.new.dotsInLine + 5 ∧
      (Ppu.new.eatDots 5).1.dotsLeft = Ppu.new.dotsLeft - 5 ∧
      (Ppu.new.eatDots 5).2 = false) ∧
    ((Ppu.new.eatDots 456).1.ly = Ppu.new.ly + 1 ∧
      (Ppu.new.eatDots 456).1.dotsInLine = 0 ∧
      (Ppu.new.eatDots 456).1.dotsLeft =
        Ppu.new.dotsLeft - (ppuHscanDots - Ppu.new.dotsInLine) ∧
      (Ppu.new.eatDots 456).2 = true) ∧
    (({ Ppu.new with dotsLeft := 456 } : Ppu).stepHblank.1.ly =
        ({ Ppu.new with dotsLeft := 456 } : Ppu).ly + 1 ∧
      ({ Ppu.new with dotsLeft := 456 } : Ppu).stepHblank.1.dotsInLine = 0 ∧
      ({ Ppu.new with dotsLeft := 456 } : Ppu).stepHblank.2 =
        (if ({ Ppu.new with dotsLeft := 456 } : Ppu).ly + 1 = ppuDrawLines
         then PpuMode.VBlank else PpuMode.Scan)) ∧
    (Ppu.new.stepHblank.1.ly = Ppu.new.ly ∧
      Ppu.new.stepHblank.2 = PpuMode.HBlank) ∧
    (({ Ppu.new with dotsLeft := 456, ly := 153 } : Ppu).stepVblank.1.ly = 0 ∧
      ({ Ppu.new with dotsLeft := 456, ly := 153 } : Ppu).stepVblank.1.dotsInLine = 0 ∧
      ({ Ppu.new with dotsLeft := 456, ly := 153 } : Ppu).stepVblank.2 =
        PpuMode.Scan) :=
  ⟨c6_ppu_frame_timing.1 Ppu.new 5 (by decide),
    c6_ppu_frame_timing.2.1 Ppu.new 456 (by decide) (by decide),
    c6_ppu_frame_timing.2.2.1 { Ppu.new with dotsLeft := 456 } (by decide),
    c6_ppu_frame_timing.2.2.2.1 Ppu.new (by decide),
    (c6_ppu_frame_timing.2.2.2.2.1 { Ppu.new with dotsLeft := 456, ly := 153 }
        (by decide)).1 (by decide)⟩

/-! ## Theorems: C9 (OAM DMA source address) -/

set_option maxRecDepth 2000 in
/-- C9 (code bug): for every value `v` written to FF46, `Mmu::start_dma`
computes the DMA source base as `(v % 0xDF) << 4`, although the comment
right above the line (and the spec) say the written value is the HIGH
BYTE of the 16-bit source address, i.e. `v << 8` (with the page wrapped
at 0xDF).  At `v = 0x12` the code starts copying from 0x0120 instead of
0x1200; the transfer itself does copy one byte per m-cycle into OAM, as
the `tick 1` conjunct shows. -/
theorem c9_dma_source_bug :
    (∀ (m : Mmu) (v : Nat),
      ((m.startDma v).oamDma =
          some { src := (v % 0xDF) <<< 4, copied := 0, count := 160 }) ∧
      (m.startDma v).dma = v) ∧
    ((Mmu.new c5Cart).startDma 0x12).oamDma =
      some { src := 0x120, copied := 0, count := 160 } ∧
    (0x12 % 0xDF) <<< 4 = 0x120 ∧
    0x12 <<< 8 = 0x1200 ∧
    (0x120 : Nat) ≠ 0x1200 ∧
    (((Mmu.new c5Cart).startDma 0x12).tick 1).oamDma =
      some { src := 0x120, copied := 1, count := 160 } ∧
    (((Mmu.new c5Cart).startDma 0x12).tick 1).ppu.oam 0 =
      (Mmu.new c5Cart).read 0x120 := by
  refine ⟨fun m v => ⟨rfl, rfl⟩, rfl, by decide, by decide, by decide,
    by decide, by decide⟩

/-! ## Theorems: C1 (interrupt dispatch) -/

/-- A memory write whose address lies outside the IO-register page
(FF00-FF7F) and is not IE (FFFF) leaves IF unchanged.  (Only writes to
FF00 and FF0F can actually change IF; this conservative form avoids the
register-write dispatch.) -/
theorem Mmu.write_iflag (m : Mmu) (addr val : Nat)
    (hio : ¬ (0xFF00 ≤ addr ∧ addr ≤ 0xFF7F)) (hie : addr ≠ 0xFFFF) :
    (m.write addr val).iflag = m.iflag := by
  unfold Mmu.write
  dsimp only
  by_cases h1 : isCartAddr addr = true
  · rw [if_pos h1]
  · rw [if_neg h1]
    by_cases h2 : 0x8000 ≤ addr ∧ addr ≤ 0x9FFF
    · rw [if_pos h2]
      by_cases hm : m.ppu.stat.ppuMode ≠ 3
      · rw [if_pos hm]
      · rw [if_neg hm]
    · rw [if_neg h2]
      by_cases h3 : 0xC000 ≤ addr ∧ addr ≤ 0xCFFF
      · rw [if_pos h3]
      · rw [if_neg h3]
        by_cases h4 : 0xD000 ≤ addr ∧ addr ≤ 0xDFFF
        · rw [if_pos h4]
        · rw [if_neg h4]
          by_cases h5 : 0xE000 ≤ addr ∧ addr ≤ 0xFDFF
          · rw [if_pos h5]
            by_cases h5e : ((addr - 0xE000) &&& 0x1FFF) + 0xC000 ≤ 0xCFFF
            · rw [if_pos h5e]
            · rw [if_neg h5e]
          · rw [if_neg h5]
            by_cases h6 : 0xFE00 ≤ addr ∧ addr ≤ 0xFE9F
            · rw [if_pos h6]
              by_cases hm2 : m.ppu.stat.ppuMode ≠ 3 ∧ m.ppu.stat.ppuMode ≠ 2
              · rw [if_pos hm2]
              · rw [if_neg hm2]
            · rw [if_neg h6]
              by_cases h7 : 0xFEA0 ≤ addr ∧ addr ≤ 0xFEFF
              · rw [if_pos h7]
              · rw [if_neg h7]
                by_cases h8 : 0xFF80 ≤ addr ∧ addr ≤ 0xFFFE
                · rw [if_pos h8]
                · rw [if_neg h8]
                  by_cases h9 : 0xFF00 ≤ addr ∧ addr ≤ 0xFF7F
                  · exact absurd h9 hio
                  · rw [if_neg h9]
                    by_cases h10 : addr = 0xFFFF
                    · exact absurd h10 hie
                    · rw [if_neg h10]

/-- Field-wise characterization of `Cpu::handle_interrupt` when IME is
set and an enabled interrupt is pending: it reports 5 m-cycles, leaves
the EI latch alone, clears IME, redirects PC to the priority vector,
decrements SP by 2 (mod 2^16), and — provided the two pushed stack bytes
land outside the IO page and IE — removes exactly the serviced bit from
IF. -/
theorem Cpu.handleInterrupt_dispatch (s : Cpu)
    (h1 : s.ime = true)
    (h2 : (s.mmu.iflag.masked s.mmu.ienable).read ≠ 0)
    (hA1 : ¬ (0xFF00 ≤ (s.sp + 0xFFFF) % 0x10000 ∧
      (s.sp + 0xFFFF) % 0x10000 ≤ 0xFF7F))
    (hA2 : (s.sp + 0xFFFF) % 0x10000 ≠ 0xFFFF)
    (hB1 : ¬ (0xFF00 ≤ (s.sp + 0xFFFE) % 0x10000 ∧
      (s.sp + 0xFFFE) % 0x10000 ≤ 0xFF7F))
    (hB2 : (s.sp + 0xFFFE) % 0x10000 ≠ 0xFFFF) :
    (Cpu.handleInterrupt s).2 = some 5 ∧
    (Cpu.handleInterrupt s).1.setImeLater = s.setImeLater ∧
    (Cpu.handleInterrupt s).1.ime = false ∧
    (Cpu.handleInterrupt s).1.pc =
      intVector (s.mmu.iflag.masked s.mmu.ienable) ∧
    (Cpu.handleInterrupt s).1.sp = (s.sp + 0xFFFE) % 0x10000 ∧
    (Cpu.handleInterrupt s).1.mmu.iflag =
      clearServiced s.mmu.iflag (s.mmu.iflag.masked s.mmu.ienable) := by
  have hmmu : (if (s.state = CpuState.Halted ∧
      (s.mmu.iflag.masked s.mmu.ienable).read ≠ 0) ∨
      (s.state = CpuState.Stopped ∧
        (s.mmu.iflag.masked s.mmu.ienable).joypad = 1) then
      { s with state := CpuState.Running } else s).mmu = s.mmu := by
    split <;> rfl
  have hspw : (if (s.state = CpuState.Halted ∧
      (s.mmu.iflag.masked s.mmu.ienable).read ≠ 0) ∨
      (s.state = CpuState.Stopped ∧
        (s.mmu.iflag.masked s.mmu.ienable).joypad = 1) then
      { s with state := CpuState.Running } else s).sp = s.sp := by
    split <;> rfl
  have hpcw : (if (s.state = CpuState.Halted ∧
      (s.mmu.iflag.masked s.mmu.ienable).read ≠ 0) ∨
      (s.state = CpuState.Stopped ∧
        (s.mmu.iflag.masked s.mmu.ienable).joypad = 1) then
      { s with state := CpuState.Running } else s).pc = s.pc := by
    split <;> rfl
  have hsilw : (if (s.state = CpuState.Halted ∧
      (s.mmu.iflag.masked s.mmu.ienable).read ≠ 0) ∨
      (s.state = CpuState.Stopped ∧
        (s.mmu.iflag.masked s.mmu.ienable).joypad = 1) then
      { s with state := CpuState.Running } else s).setImeLater =
      s.setImeLater := by
    split <;> rfl
  have himew : (if (s.state = CpuState.Halted ∧
      (s.mmu.iflag.masked s.mmu.ienable).read ≠ 0) ∨
      (s.state = CpuState.Stopped ∧
        (s.mmu.iflag.masked s.mmu.ienable).joypad = 1) then
      { s with state := CpuState.Running } else s).ime = s.ime := by
    split <;> rfl
  have hcond : ¬ (¬ (if (s.state = CpuState.Halted ∧
      (s.mmu.iflag.masked s.mmu.ienable).read ≠ 0) ∨
      (s.state = CpuState.Stopped ∧
        (s.mmu.iflag.masked s.mmu.ienable).joypad = 1) then
      { s with state := CpuState.Running } else s).ime = true ∨
      (s.mmu.iflag.masked s.mmu.ienable).read = 0) := by
    intro hA
    rcases hA with hA | hA
    · rw [himew, h1] at hA
      exact hA rfl
    · exact h2 hA
  have hsp2 : ((s.sp + 0xFFFF) % 0x10000 + 0xFFFF) % 0x10000 =
      (s.sp + 0xFFFE) % 0x10000 := by omega
  unfold Cpu.handleInterrupt
  dsimp only
  rw [if_neg hcond]
  dsimp only [Cpu.doPush]
  rw [hmmu, hspw, hpcw, hsilw, hsp2]
  refine ⟨rfl, rfl, rfl, ?_, by omega, ?_⟩
  · unfold intVector
    by_cases hv : (s.mmu.iflag.masked s.mmu.ienable).vblank = 1
    · rw [if_pos hv, if_pos hv]
    · rw [if_neg hv, if_neg hv]
      by_cases hst : (s.mmu.iflag.masked s.mmu.ienable).stat = 1
      · rw [if_pos hst, if_pos hst]
      · rw [if_neg hst, if_neg hst]
        by_cases ht : (s.mmu.iflag.masked s.mmu.ienable).timer = 1
        · rw [if_pos ht, if_pos ht]
        · rw [if_neg ht, if_neg ht]
          by_cases hse : (s.mmu.iflag.masked s.mmu.ienable).serial = 1
          · rw [if_pos hse, if_pos hse]
          · rw [if_neg hse, if_neg hse]
  · rw [Mmu.write_iflag _ _ _ hB1 hB2, Mmu.write_iflag _ _ _ hA1 hA2]
    dsimp only
    unfold clearServiced
    by_cases hv : (s.mmu.iflag.masked s.mmu.ienable).vblank = 1
    · rw [if_pos hv, if_pos hv]
    · rw [if_neg hv, if_neg hv]
      by_cases hst : (s.mmu.iflag.masked s.mmu.ienable).stat = 1
      · rw [if_pos hst, if_pos hst]
      · rw [if_neg hst, if_neg hst]
        by_cases ht : (s.mmu.iflag.masked s.mmu.ienable).timer = 1
        · rw [if_pos ht, if_pos ht]
        · rw [if_neg ht, if_neg ht]
          by_cases hse : (s.mmu.iflag.masked s.mmu.ienable).serial = 1
          · rw [if_pos hse, if_pos hse]
          · rw [if_neg hse, if_neg hse]

/-- C1 counterexample: in the concrete scenario of the claim but with
the delayed-EI latch armed (`set_ime_later = true`, i.e. the pending
interrupt arrives right after an `EI` instruction), a single `Cpu::step`
does dispatch the interrupt (PC = 0x40, 5 m-cycles) — but IME is `true`
again after the step, not cleared as the claim states, because the latch
fires after the dispatch. -/
theorem c1_counterexample :
    c1LatchCpu.ime = true ∧
    (c1LatchCpu.mmu.iflag.masked c1LatchCpu.mmu.ienable).read ≠ 0 ∧
    (Cpu.step c1Exec c1LatchCpu).1.pc = 0x40 ∧
    (Cpu.step c1Exec c1LatchCpu).2 = 5 ∧
    (Cpu.step c1Exec c1LatchCpu).1.ime = true := by
  refine ⟨rfl, by decide, by decide, by decide, by decide⟩

/-- C1 (amended): with IME set, a pending enabled interrupt,
`set_ime_later` clear, and neither pushed stack byte landing on the
IO-register page or IE, a single `Cpu::step` dispatches the interrupt
instead of executing an instruction (the result is the same for every
instruction interpreter): 5 m-cycles, IME cleared, PC set to the
highest-priority vector (VBlank 0x40 > STAT 0x48 > Timer 0x50 >
Serial 0x58 > Joypad 0x60), SP decremented by 2 (mod 2^16), and —
at the `handle_interrupt` level, before the MMU tick of the 5 m-cycles
can raise new bits — IF loses exactly the serviced bit.  In the claim's
concrete scenario the stack holds 0x34 at 0xBFFE and 0x12 at 0xBFFF,
PC = 0x0040, and IF reads 0 afterwards. -/
theorem c1_interrupt_dispatch_amended (s : Cpu)
    (exec exec' : Cpu → Cpu × Nat)
    (h1 : s.ime = true)
    (h2 : (s.mmu.iflag.masked s.mmu.ienable).read ≠ 0)
    (h3 : s.setImeLater = false)
    (hA1 : ¬ (0xFF00 ≤ (s.sp + 0xFFFF) % 0x10000 ∧
      (s.sp + 0xFFFF) % 0x10000 ≤ 0xFF7F))
    (hA2 : (s.sp + 0xFFFF) % 0x10000 ≠ 0xFFFF)
    (hB1 : ¬ (0xFF00 ≤ (s.sp + 0xFFFE) % 0x10000 ∧
      (s.sp + 0xFFFE) % 0x10000 ≤ 0xFF7F))
    (hB2 : (s.sp + 0xFFFE) % 0x10000 ≠ 0xFFFF) :
    (Cpu.step exec s).2 = 5 ∧
    (Cpu.step exec s).1.ime = false ∧
    (Cpu.step exec s).1.pc = intVector (s.mmu.iflag.masked s.mmu.ienable) ∧
    (Cpu.step exec s).1.sp = (s.sp + 0xFFFE) % 0x10000 ∧
    Cpu.step exec s = Cpu.step exec' s ∧
    (Cpu.handleInterrupt s).1.mmu.iflag =
      clearServiced s.mmu.iflag (s.mmu.iflag.masked s.mmu.ienable) ∧
    intVector (IntrBits.new 1) = 0x40 ∧
    (Cpu.step c1Exec c1Cpu).2 = 5 ∧
    (Cpu.step c1Exec c1Cpu).1.ime = false ∧
    (Cpu.step c1Exec c1Cpu).1.pc = 0x40 ∧
    (Cpu.step c1Exec c1Cpu).1.sp = 0xBFFE ∧
    (Cpu.step c1Exec c1Cpu).1.mmu.read 0xBFFE = 0x34 ∧
    (Cpu.step c1Exec c1Cpu).1.mmu.read 0xBFFF = 0x12 ∧
    (Cpu.step c1Exec c1Cpu).1.mmu.iflag.read = 0 := by
  obtain ⟨g1, g2, g3, g4, g5, g6⟩ :=
    Cpu.handleInterrupt_dispatch s h1 h2 hA1 hA2 hB1 hB2
  have hstep : ∀ ex : Cpu → Cpu × Nat, Cpu.step ex s =
      ({ (Cpu.handleInterrupt s).1 with
          mmu := (Cpu.handleInterrupt s).1.mmu.tick 5 }, 5) := by
    intro ex
    unfold Cpu.step
    dsimp only
    rw [g1]
    dsimp only
    simp [g2, h3]
  refine ⟨?_, ?_, ?_, ?_, ?_, g6, by decide, by decide, by decide,
    by decide, by decide, by decide, by decide, by decide⟩
  · rw [hstep exec]
  · rw [hstep exec]
    exact g3
  · rw [hstep exec]
    exact g4
  · rw [hstep exec]
    exact g5
  · rw [hstep exec, hstep exec']

/-- C1 witness: the amended dispatch theorem instantiated at the claim's
concrete scenario (two different interpreters show exec-independence). -/
theorem c1_interrupt_dispatch_amended_witness :
    c1Cpu.ime = true ∧
    (c1Cpu.mmu.iflag.masked c1Cpu.mmu.ienable).read ≠ 0 ∧
    c1Cpu.setImeLater = false ∧
    ((Cpu.step c1Exec c1Cpu).2 = 5 ∧
      (Cpu.step c1Exec c1Cpu).1.ime = false ∧
      (Cpu.step c1Exec c1Cpu).1.pc =
        intVector (c1Cpu.mmu.iflag.masked c1Cpu.mmu.ienable) ∧
      (Cpu.step c1Exec c1Cpu).1.sp = (c1Cpu.sp + 0xFFFE) % 0x10000 ∧
      Cpu.step c1Exec c1Cpu = Cpu.step c1Exec2 c1Cpu ∧
      (Cpu.handleInterrupt c1Cpu).1.mmu.iflag =
        clearServiced c1Cpu.mmu.iflag
          (c1Cpu.mmu.iflag.masked c1Cpu.mmu.ienable) ∧
      intVector (IntrBits.new 1) = 0x40 ∧
      (Cpu.step c1Exec c1Cpu).2 = 5 ∧
      (Cpu.step c1Exec c1Cpu).1.ime = false ∧
      (Cpu.step c1Exec c1Cpu).1.pc = 0x40 ∧
      (Cpu.step c1Exec c1Cpu).1.sp = 0xBFFE ∧
      (Cpu.step c1Exec c1Cpu).1.mmu.read 0xBFFE = 0x34 ∧
      (Cpu.step c1Exec c1Cpu).1.mmu.read 0xBFFF = 0x12 ∧
      (Cpu.step c1Exec c1Cpu).1.mmu.iflag.read = 0) :=
  ⟨rfl, by decide, rfl,
    c1_interrupt_dispatch_amended c1Cpu c1Exec c1Exec2 rfl (by decide) rfl
      (by decide) (by decide) (by decide) (by decide)⟩

/-! ## Theorems: C10 (step m-cycles are positive) -/

/-- `Cpu::handle_interrupt` returns either `None` or `Some(5)`. -/
theorem Cpu.handleInterrupt_cycles (s : Cpu) :
    (Cpu.handleInterrupt s).2 = none ∨
    (Cpu.handleInterrupt s).2 = some 5 := by
  unfold Cpu.handleInterrupt
  dsimp only
  by_cases hc : ¬ (if (s.state = CpuState.Halted ∧
      (s.mmu.iflag.masked s.mmu.ienable).read ≠ 0) ∨
      (s.state = CpuState.Stopped ∧
        (s.mmu.iflag.masked s.mmu.ienable).joypad = 1) then
      { s with state := CpuState.Running } else s).ime = true ∨
      (s.mmu.iflag.masked s.mmu.ienable).read = 0
  · rw [if_pos hc]
    exact Or.inl rfl
  · rw [if_neg hc]
    exact Or.inr rfl

set_option maxRecDepth 4000 in
/-- C10: every entry of the three (spec-modelled) per-opcode m-cycle
tables is strictly positive, and `Cpu::step` always returns a strictly
positive m-cycle count — 5 when an interrupt is dispatched, 1 when the
CPU stays Halted or Stopped, and the interpreter's count otherwise — so
as long as the instruction interpreter reports positive counts (which
the tables guarantee), the `assert!(mcycles > 0)` in `Timer::tick` and
the `debug_assert!(mcycles > 0)` in `Emulator::step` can never fire. -/
theorem c10_step_mcycles_positive :
    instrMcycles.length = 256 ∧
    instrMcyclesTaken.length = 256 ∧
    prefInstrMcycles.length = 256 ∧
    (∀ m ∈ instrMcycles, 0 < m) ∧
    (∀ m ∈ instrMcyclesTaken, 0 < m) ∧
    (∀ m ∈ prefInstrMcycles, 0 < m) ∧
    (∀ (s : Cpu) (exec : Cpu → Cpu × Nat),
      (Cpu.handleInterrupt s).2 = some 5 → (Cpu.step exec s).2 = 5) ∧
    (∀ (s : Cpu) (exec : Cpu → Cpu × Nat),
      (Cpu.handleInterrupt s).2 = none →
      (Cpu.handleInterrupt s).1.state = CpuState.Halted →
      (Cpu.step exec s).2 = 1) ∧
    (∀ (s : Cpu) (exec : Cpu → Cpu × Nat),
      (Cpu.handleInterrupt s).2 = none →
      (Cpu.handleInterrupt s).1.state = CpuState.Running →
      (Cpu.step exec s).2 = (exec (Cpu.handleInterrupt s).1).2) ∧
    (∀ (s : Cpu) (exec : Cpu → Cpu × Nat),
      (∀ c, 0 < (exec c).2) → 0 < (Cpu.step exec s).2) := by
  refine ⟨by decide, by decide, by decide, by decide, by decide, by decide,
    ?_, ?_, ?_, ?_⟩
  · intro s exec hh
    unfold Cpu.step
    dsimp only
    rw [hh]
  · intro s exec hh hst
    unfold Cpu.step
    dsimp only
    rw [hh, hst]
  · intro s exec hh hst
    unfold Cpu.step
    dsimp only
    rw [hh, hst]
  · intro s exec hex
    unfold Cpu.step
    dsimp only
    rcases Cpu.handleInterrupt_cycles s with hh | hh <;> rw [hh]
    · cases hst : (Cpu.handleInterrupt s).1.state <;> dsimp only
      · exact hex _
      · decide
      · decide
    · dsimp only
      decide

/-- C10 witness: positivity instantiated at the first entries of each
table and a full `Cpu::step` on the concrete `c1Cpu` state with the
1-m-cycle no-op interpreter. -/
theorem c10_step_mcycles_positive_witness :
    (0 < 1) ∧ (0 < 3) ∧ (0 < 2) ∧
    (Cpu.step c1Exec c1Cpu).2 = 5 ∧
    0 < (Cpu.step c1Exec c1Cpu).2 :=
  ⟨c10_step_mcycles_positive.2.2.2.1 1 (by decide),
    c10_step_mcycles_positive.2.2.2.2.1 3 (by decide),
    c10_step_mcycles_positive.2.2.2.2.2.1 2 (by decide),
    c10_step_mcycles_positive.2.2.2.2.2.2.1 c1Cpu c1Exec (by decide),
    c10_step_mcycles_positive.2.2.2.2.2.2.2.2.2 c1Cpu c1Exec
      (fun _ => Nat.one_pos)⟩
end Gbemu
